import Mathlib

/-!
Verification of the Aadhaar analytics pipeline
(data_processor.py, metrics_calculator.py, anomaly_detection.py, geo_utils.py).

The Python code is shallowly embedded: pandas columns of floats become
rationals, NaN cells become `Option` values, dataframes become lists of
records, and every `np.where`-guarded division becomes an explicit
`if`-guarded division. String cleaning (strip, split/join, lower,
replace) is embedded at the character-list level, faithful to Python
semantics on the ASCII data handled here.
-/

namespace Aadhaar

/-! ## Rational helpers (np.clip, pandas mean and max over a group) -/

/-- Embedding of np.clip(x, lo, hi). -/
def qclip (x lo hi : ℚ) : ℚ := min (max x lo) hi

/-- Embedding of pandas mean aggregation of a group (groups are nonempty). -/
def meanQ (xs : List ℚ) : ℚ := xs.sum / (xs.length : ℚ)

/-- Embedding of pandas max aggregation of a group (groups are nonempty). -/
def maxQ : List ℚ → ℚ
  | [] => 0
  | x :: xs => xs.foldl max x

/-- A pandas cell that may be NaN is nonnegative when present: a NaN cell
reads as its fillna(0) value. -/
def OptNonneg (o : Option ℚ) : Prop := 0 ≤ o.getD 0

/-! ## Character-level string machinery

Python str.strip, str.split()/join, str.lower and str.replace as used by
the name normalizers in geo_utils.py. -/

def isSpaceChar (c : Char) : Bool := c.isWhitespace

def nonSpace (c : Char) : Bool := !(isSpaceChar c)

/-- Leading-whitespace removal, first half of Python str.strip(). -/
def dropSpaces (cs : List Char) : List Char := cs.dropWhile isSpaceChar

/-- Trailing-whitespace removal, second half of Python str.strip(). -/
def trimEnd (cs : List Char) : List Char :=
  ((cs.reverse).dropWhile isSpaceChar).reverse

/-- Embedding of Python str.strip() on the character list. -/
def stripL (cs : List Char) : List Char := trimEnd (dropSpaces cs)

/-- Embedding of Python str.strip() on strings. -/
def pyStrip (s : String) : String := String.mk (stripL s.data)

/-- Embedding of Python str.split(): maximal runs of non-whitespace. -/
def wordsL : List Char → List (List Char)
  | [] => []
  | [c] => if isSpaceChar c then [] else [[c]]
  | c :: d :: cs =>
    if isSpaceChar c then wordsL (d :: cs)
    else
      match wordsL (d :: cs) with
      | [] => [[c]]
      | w :: ws => if isSpaceChar d then [c] :: w :: ws else (c :: w) :: ws

/-- Embedding of ' '.join on word lists. -/
def sepJoin : List (List Char) → List Char
  | [] => []
  | [w] => w
  | w :: ws => w ++ ' ' :: sepJoin ws

/-- Embedding of Python ' '.join(s.split()): whitespace normalization. -/
def wsJoin (s : String) : String := String.mk (sepJoin (wordsL s.data))

/-- Embedding of Python str.lower() (ASCII data). -/
def lowerStr (s : String) : String := String.mk (s.data.map Char.toLower)

/-- Embedding of str.replace(" *", ""): left-to-right non-overlapping. -/
def dropSpaceStar : List Char → List Char
  | [] => []
  | ' ' :: '*' :: rest => dropSpaceStar rest
  | c :: rest => c :: dropSpaceStar rest

/-- Embedding of str.replace("*", ""). -/
def dropStar (cs : List Char) : List Char := cs.filter (fun c => c ≠ '*')

/-- The cleaned key tried second in normalize_district_name:
lower.replace(" *", "").replace("*", "").strip(). -/
def cleanedName (s : String) : String :=
  String.mk (stripL (dropStar (dropSpaceStar s.data)))

/-- First-match association lookup, embedding Python dict access
(the source dicts that repeat a key repeat it with the same value). -/
def lookupName (key : String) : List (String × String) → Option String
  | [] => none
  | p :: ps => if p.1 = key then some p.2 else lookupName key ps

/-! ## Alias tables from geo_utils.py

Transcribed verbatim from GeoJSONUtils.normalize_state_name and
GeoJSONUtils.normalize_district_name. The Python dict literals repeat the
keys dholpur and jalore with identical values, so first-match lookup on
these lists agrees with Python dict lookup. -/

/-- State alias table of normalize_state_name. -/
def stateMappings : List (String × String) := [
  ("Jammu and Kashmir", "Jammu and Kashmir"),
  ("Jammu And Kashmir", "Jammu and Kashmir"),
  ("Dadra and Nagar Haveli", "DNH and DD"),
  ("Dadra And Nagar Haveli", "DNH and DD"),
  ("The Dadra And Nagar Haveli And Daman And Diu", "DNH and DD"),
  ("Daman and Diu", "DNH and DD"),
  ("Puducherry", "Puducherry"),
  ("Tamil Nadu", "Tamil Nadu"),
  ("West Bengal", "West Bengal"),
  ("West Bengli", "West Bengal"),
  ("Uttar Pradesh", "Uttar Pradesh"),
  ("Himachal Pradesh", "Himachal Pradesh"),
  ("Andhra Pradesh", "Andhra Pradesh"),
  ("Arunachal Pradesh", "Arunachal Pradesh"),
  ("Madhya Pradesh", "Madhya Pradesh"),
  ("Chhatisgarh", "Chhattisgarh"),
  ("Chhattisgarh", "Chhattisgarh"),
  ("Uttaranchal", "Uttarakhand"),
  ("Uttarakhand", "Uttarakhand")
]

/-- District alias table of normalize_district_name. -/
def districtMappings : List (String × String) := [
  ("bengaluru south", "Bengaluru Urban"),
  ("bengaluru", "Bengaluru Urban"),
  ("bangalore", "Bengaluru Urban"),
  ("bangalore rural", "Bengaluru Rural"),
  ("belgaum", "Belagavi"),
  ("bellary", "Ballari"),
  ("bijapur(kar)", "Vijayapura"),
  ("bijapur", "Vijayapura"),
  ("chamarajanagar", "Chamarajanagara"),
  ("chikballapur", "Chikkaballapura"),
  ("chikmagalur", "Chikkamagaluru"),
  ("dakshina kannada", "Dakshin Kannad"),
  ("gulbarga", "Kalaburagi"),
  ("hubli-dharwad", "Dharwad"),
  ("mysore", "Mysuru"),
  ("shimoga", "Shivamogga"),
  ("tumkur", "Tumakuru"),
  ("uttara kannada", "Uttar Kannad"),
  ("guledagudda", "Bagalkot"),
  ("ahmed nagar", "Ahmednagar"),
  ("beed", "Bid"),
  ("buldhana", "Buldana"),
  ("gondia", "Gondiya"),
  ("mumbai", "Mumbai Suburban"),
  ("nashik", "Nashik"),
  ("nandurbar", "Nandurbar"),
  ("raigarh(mh)", "Raigarh"),
  ("raigad", "Raigad"),
  ("thane", "Thane"),
  ("allahabad", "Prayagraj"),
  ("barabanki", "Bara Banki"),
  ("faizabad", "Ayodhya"),
  ("firozabad", "Firozabad"),
  ("gautam buddha nagar", "Gautam Buddh Nagar"),
  ("kanpur dehat", "Kanpur Dehat"),
  ("kanpur nagar", "Kanpur Nagar"),
  ("kheri", "Kheri"),
  ("lakhimpur kheri", "Kheri"),
  ("jyotiba phule nagar", "Amroha"),
  ("kanshiram nagar", "Kasganj"),
  ("mahamaya nagar", "Hathras"),
  ("noida", "Gautam Buddh Nagar"),
  ("raebareli", "Rae Bareli"),
  ("sant ravidas nagar", "Bhadohi"),
  ("sant ravidas nagar (bhadohi)", "Bhadohi"),
  ("siddharth nagar", "Siddharthnagar"),
  ("shravasti", "Shrawasti"),
  ("bhabua", "Kaimur"),
  ("kaimur (bhabua)", "Kaimur"),
  ("jehanabad", "Jehanabad"),
  ("pashchim champaran", "Pashchim Champaran"),
  ("west champaran", "Pashchim Champaran"),
  ("purbi champaran", "Purba Champaran"),
  ("east champaran", "Purba Champaran"),
  ("sheikpura", "Sheikhpura"),
  ("purnia", "Purnia"),
  ("purnea", "Purnia"),
  ("bardhaman", "Purba Bardhaman"),
  ("burdwan", "Purba Bardhaman"),
  ("coochbehar", "Koch Bihar"),
  ("darjiling", "Darjeeling"),
  ("hooghly", "Hooghly"),
  ("howrah", "Haora"),
  ("maldah", "Malda"),
  ("north 24 parganas", "North 24 Parganas"),
  ("south 24 parganas", "South 24 Parganas"),
  ("north twenty four parganas", "North 24 Parganas"),
  ("south twenty four parganas", "South 24 Parganas"),
  ("purulia", "Purulia"),
  ("puruliya", "Purulia"),
  ("ahmedabad", "Ahmadabad"),
  ("ahmdabad", "Ahmadabad"),
  ("banaskantha", "Banas Kantha"),
  ("chhota udaipur", "Chhotaudepur"),
  ("dahod", "Dohad"),
  ("devbhumi dwarka", "Devbhumi Dwaraka"),
  ("dholpur", "Dhaulpur"),
  ("kutch", "Kachchh"),
  ("mahesana", "Mahesana"),
  ("mehsana", "Mahesana"),
  ("panch mahals", "Panchmahal"),
  ("panchmahals", "Panchmahal"),
  ("sabarkantha", "Sabarkantha"),
  ("the dangs", "Dang"),
  ("vadodara", "Vadodara"),
  ("beawar", "Ajmer"),
  ("didwana-kuchaman", "Nagaur"),
  ("dudu", "Jaipur"),
  ("gangapur city", "Sawai Madhopur"),
  ("jalore", "Jalor"),
  ("kekri", "Ajmer"),
  ("kotputli-behror", "Jaipur"),
  ("khairthal-tijara", "Alwar"),
  ("neem ka thana", "Sikar"),
  ("phalodi", "Jodhpur"),
  ("salumbar", "Udaipur"),
  ("shahpura", "Bhilwara"),
  ("bundi", "Bundi"),
  ("chittaurgarh", "Chittorgarh"),
  ("dholpur", "Dhaulpur"),
  ("jalore", "Jalor"),
  ("jhunjhunun", "Jhunjhunu"),
  ("sawai madhopur", "Sawai Madhopur"),
  ("badgam", "Budgam"),
  ("bandipora", "Bandipore"),
  ("baramula", "Baramulla"),
  ("rajauri", "Rajouri"),
  ("shopian", "Shopiyan"),
  ("shupiyan", "Shopiyan"),
  ("chengalpattu", "Kancheepuram"),
  ("kanchipuram", "Kancheepuram"),
  ("kanyakumari", "Kanniyakumari"),
  ("tenkasi", "Tirunelveli"),
  ("the nilgiris", "Nilgiris"),
  ("thiruvallur", "Thiruvallur"),
  ("tiruvallur", "Thiruvallur"),
  ("thoothukudi", "Thoothukkudi"),
  ("tuticorin", "Thoothukkudi"),
  ("tirupattur", "Tirupathur"),
  ("tiruppur", "Tiruppur"),
  ("tiruvarur", "Thiruvarur"),
  ("villupuram", "Viluppuram"),
  ("angul", "Angul"),
  ("anugul", "Angul"),
  ("balasore", "Baleshwar"),
  ("bhubaneswar", "Khordha"),
  ("cuttack", "Cuttack"),
  ("deogarh", "Debagarh"),
  ("jajpur", "Jajpur"),
  ("jagatsinghapur", "Jagatsinghpur"),
  ("khordha", "Khordha"),
  ("keonjhar", "Kendujhar"),
  ("nabarangapur", "Nabarangpur"),
  ("sundergarh", "Sundargarh"),
  ("fategarh sahib", "Fatehgarh Sahib"),
  ("firozpur", "Ferozepur"),
  ("sahibzada ajit singh nagar", "S.A.S. Nagar"),
  ("s.a.s nagar", "S.A.S. Nagar"),
  ("s.a.s. nagar (mohali)", "S.A.S. Nagar"),
  ("mohali", "S.A.S. Nagar"),
  ("sri muktsar sahib", "Sri Muktsar Sahib"),
  ("tarn taran", "Tarn Taran"),
  ("gurgaon", "Gurugram"),
  ("gurugram", "Gurugram"),
  ("hisar", "Hisar"),
  ("mewat", "Nuh"),
  ("nuh", "Nuh"),
  ("yamuna nagar", "Yamunanagar"),
  ("dadra & nagar haveli", "Dadra and Nagar Haveli"),
  ("dinhata", "Koch Bihar"),
  ("east district", "East District"),
  ("north district", "North District"),
  ("south district", "South District"),
  ("west district", "West District"),
  ("hazaribag", "Hazaribagh"),
  ("janjgir - champa", "Janjgir Champa"),
  ("leads", "Ladakh"),
  ("leh", "Leh (Ladakh)"),
  ("mahabub nagar", "Mahbubnagar"),
  ("marigaon", "Morigaon"),
  ("narsimhapur", "Narsinghpur"),
  ("rangareddi", "Ranga Reddy"),
  ("rangareddy", "Ranga Reddy"),
  ("sepahijala", "Sipahijala"),
  ("seraikela-kharsawan", "Saraikela-Kharsawan"),
  ("west medinipur", "Paschim Medinipur"),
  ("west midnapore", "Paschim Medinipur"),
  ("chandauli *", "Chandauli"),
  ("chitrakoot *", "Chitrakoot"),
  ("haveri *", "Haveri"),
  ("hingoli *", "Hingoli"),
  ("khordha  *", "Khordha"),
  ("kushinagar *", "Kushinagar"),
  ("nandurbar *", "Nandurbar"),
  ("udham singh nagar *", "Udham Singh Nagar"),
  ("washim *", "Washim"),
  ("bagalkot *", "Bagalkot"),
  ("north 24 parganas *", "North 24 Parganas"),
  ("south 24 pargana", "South 24 Parganas")
]

/-! ## Name normalizers (geo_utils.py)

The input type `Option String` models a pandas cell: `none` is a missing
value (None or NaN, detected by pd.isna), `some s` a string cell. -/

/-- Embedding of GeoJSONUtils.normalize_state_name. -/
def normalizeStateName : Option String → String
  | none => ""
  | some s =>
    if s = "nan" ∨ s = "None" then ""
    else
      let t := pyStrip s
      if t = "" then "" else (lookupName t stateMappings).getD t

/-- Embedding of GeoJSONUtils.normalize_district_name. -/
def normalizeDistrictName : Option String → String
  | none => ""
  | some s =>
    if s = "nan" ∨ s = "None" then ""
    else if s = "" ∨ pyStrip s = "" then ""
    else
      let normalized := wsJoin (pyStrip s)
      let lower := lowerStr normalized
      match lookupName lower districtMappings with
      | some v => v
      | none =>
        match lookupName (cleanedName lower) districtMappings with
        | some v => v
        | none => normalized

/-! ## Metrics engine (metrics_calculator.py)

A merged-table row. Numeric cells are `Option` rationals: `none` is a NaN
cell, `some v` a float value. The merged table built by
DataProcessor.merge_all_datasets carries a total_holders input column; the
growth-rate lag reads that column, while add_all_metrics recomputes its own
total_holders from the age brackets. -/

structure Row where
  state : String
  district : String
  year_month : String
  age_0_5 : Option ℚ
  age_5_17 : Option ℚ
  age_18_greater : Option ℚ
  demo_age_5_17 : Option ℚ
  demo_age_17_ : Option ℚ
  bio_age_5_17 : Option ℚ
  bio_age_17_ : Option ℚ
  total_holders : Option ℚ
  total_demo_updates : Option ℚ
  total_bio_updates : Option ℚ
deriving DecidableEq

/-- All numeric cells of a row that feed the derived metrics are nonnegative
when present (they are counts in the source data). -/
def RowNonneg (r : Row) : Prop :=
  OptNonneg r.age_0_5 ∧ OptNonneg r.age_5_17 ∧ OptNonneg r.age_18_greater ∧
  OptNonneg r.demo_age_5_17 ∧ OptNonneg r.demo_age_17_ ∧
  OptNonneg r.bio_age_5_17 ∧ OptNonneg r.bio_age_17_ ∧
  OptNonneg r.total_holders ∧ OptNonneg r.total_demo_updates ∧
  OptNonneg r.total_bio_updates

instance rowNonneg_dec : DecidablePred RowNonneg := fun r => by
  unfold RowNonneg OptNonneg
  infer_instance

/-- MetricsCalculator.calculate_total_holders: fillna(0) sums of the age
brackets. -/
def totalHoldersCalc (r : Row) : ℚ :=
  r.age_0_5.getD 0 + r.age_5_17.getD 0 + r.age_18_greater.getD 0

/-- MetricsCalculator.calculate_total_updates. -/
def totalUpdatesCalc (r : Row) : ℚ :=
  (r.demo_age_5_17.getD 0 + r.demo_age_17_.getD 0) +
  (r.bio_age_5_17.getD 0 + r.bio_age_17_.getD 0)

/-- MetricsCalculator.calculate_update_ratio: np.where(total_holders > 0,
total_updates / total_holders, 0). -/
def updateRatio (r : Row) : ℚ :=
  if 0 < totalHoldersCalc r then totalUpdatesCalc r / totalHoldersCalc r else 0

/-- The demo_update_ratio column of add_all_metrics. -/
def demoUpdateRatio (r : Row) : ℚ :=
  if 0 < totalHoldersCalc r then r.total_demo_updates.getD 0 / totalHoldersCalc r
  else 0

/-- The bio_update_ratio column of add_all_metrics. -/
def bioUpdateRatio (r : Row) : ℚ :=
  if 0 < totalHoldersCalc r then r.total_bio_updates.getD 0 / totalHoldersCalc r
  else 0

/-- Sort key of df.sort_values(by district then year_month). String order
is stated on the character lists, which is exactly the order of the
core < on String and of the lexicographic comparison pandas applies. -/
def rowLE (a b : Row) : Prop :=
  a.district.data < b.district.data ∨
    (a.district = b.district ∧ ¬ b.year_month.data < a.year_month.data)

instance rowLE_dec : DecidableRel rowLE := fun a b => by
  unfold rowLE
  infer_instance

/-- The rows of one groupby(district) group of the sorted frame, in frame
order: sort_values(by district, year_month) keeps groups contiguous and
groupby preserves the sorted order inside each group. -/
def seriesOf (rows : List Row) (d : String) : List Row :=
  (List.insertionSort rowLE rows).filter (fun r => r.district = d)

/-- Pair each element of a group with its shift(1) predecessor; the first
element of the group gets `none` (the NaN produced by shift). -/
def withPrev : Option Row → List Row → List (Row × Option Row)
  | _, [] => []
  | p, r :: rs => (r, p) :: withPrev (some r) rs

/-- MetricsCalculator.calculate_biometric_compliance on one district group:
np.where(lag > 0, bio_age_17_.fillna(0) / lag, 0), where lag is the
shift(1) of age_5_17 inside the group; a NaN lag fails the lag > 0 test
and yields 0. -/
def complianceSeries (rows : List Row) (d : String) : List ℚ :=
  (withPrev none (seriesOf rows d)).map (fun rp =>
    match rp.2 with
    | none => 0
    | some q =>
      match q.age_5_17 with
      | none => 0
      | some lag => if 0 < lag then rp.1.bio_age_17_.getD 0 / lag else 0)

/-- MetricsCalculator.calculate_enrolment_growth_rate on one district group,
before the fillna(0) applied by add_all_metrics: np.where(prev > 0,
(cur - prev) / prev, 0) on the shift(1) of the total_holders input column.
A NaN prev fails prev > 0 and yields 0; a NaN cur with positive prev
propagates NaN. -/
def growthRateRaw (rows : List Row) (d : String) : List (Option ℚ) :=
  (withPrev none (seriesOf rows d)).map (fun rp =>
    match rp.2 with
    | none => some 0
    | some q =>
      match q.total_holders with
      | none => some 0
      | some prev =>
        if 0 < prev then
          match rp.1.total_holders with
          | none => none
          | some cur => some ((cur - prev) / prev)
        else some 0)

/-- The enrolment_growth_rate column as stored by add_all_metrics: the raw
series with remaining NaN filled to 0. -/
def growthRateSeries (rows : List Row) (d : String) : List ℚ :=
  (growthRateRaw rows d).map (fun o => o.getD 0)

/-! ## Concrete rows for the C1 and C4 witnesses and counterexample -/

/-- A first month for district X with 100 holders on the input column. -/
def gRow1 : Row :=
  { state := "S", district := "X", year_month := "2023-01",
    age_0_5 := some 10, age_5_17 := some 20, age_18_greater := some 70,
    demo_age_5_17 := some 1, demo_age_17_ := some 2,
    bio_age_5_17 := some 3, bio_age_17_ := some 4,
    total_holders := some 100, total_demo_updates := some 3,
    total_bio_updates := some 7 }

/-- A second month for district X where holders fell from 100 to 50. -/
def gRow2 : Row :=
  { state := "S", district := "X", year_month := "2023-02",
    age_0_5 := some 5, age_5_17 := some 10, age_18_greater := some 35,
    demo_age_5_17 := some 1, demo_age_17_ := some 2,
    bio_age_5_17 := some 3, bio_age_17_ := some 4,
    total_holders := some 50, total_demo_updates := some 3,
    total_bio_updates := some 7 }

/-- A single-period district A. -/
def wRow1 : Row :=
  { state := "S", district := "A", year_month := "2023-01",
    age_0_5 := some 1, age_5_17 := some 2, age_18_greater := some 3,
    demo_age_5_17 := some 1, demo_age_17_ := some 1,
    bio_age_5_17 := some 1, bio_age_17_ := some 1,
    total_holders := some 6, total_demo_updates := some 2,
    total_bio_updates := some 2 }

/-- An unrelated district B sharing the table with district A. -/
def wRow2 : Row :=
  { state := "S", district := "B", year_month := "2022-12",
    age_0_5 := some 4, age_5_17 := some 5, age_18_greater := some 6,
    demo_age_5_17 := some 1, demo_age_17_ := some 1,
    bio_age_5_17 := some 1, bio_age_17_ := some 1,
    total_holders := some 15, total_demo_updates := some 2,
    total_bio_updates := some 2 }

/-! ## District summary (MetricsCalculator.get_latest_metrics_by_district)

One (state, district) group of the metric table, as the monthly value
lists that the groupby aggregation consumes. -/

structure DistrictGroup where
  ratios : List ℚ
  holders : List ℚ
  updates : List ℚ
  demoRatios : List ℚ
  bioRatios : List ℚ

/-- The sanity-check ratio recomputed from totals: np.where(mean holders >
0, sum updates / mean holders, 0). -/
def calculatedRatio (g : DistrictGroup) : ℚ :=
  if 0 < meanQ g.holders then g.updates.sum / meanQ g.holders else 0

/-- The update_ratio_calc column: np.clip(calculated_ratio, 0, 10). -/
def updateRatioCalc (g : DistrictGroup) : ℚ := qclip (calculatedRatio g) 0 10

/-- The final update_ratio of the District Summary: the mean monthly ratio,
replaced by the capped calculated ratio when it exceeds 20, then clipped
to the closed interval from 0 to 50. -/
def finalUpdateRatio (g : DistrictGroup) : ℚ :=
  qclip (if 20 < meanQ g.ratios then updateRatioCalc g else meanQ g.ratios) 0 50

/-- The final demo_update_ratio: mean of monthly values clipped to 0..50. -/
def finalDemoRatio (g : DistrictGroup) : ℚ := qclip (meanQ g.demoRatios) 0 50

/-- The final bio_update_ratio: mean of monthly values clipped to 0..50. -/
def finalBioRatio (g : DistrictGroup) : ℚ := qclip (meanQ g.bioRatios) 0 50

/-- The synthetic extreme district of the clipping test: one month, one
holder, 1000 updates, so its monthly update_ratio is 1000. -/
def gExtreme : DistrictGroup :=
  { ratios := [1000], holders := [1], updates := [1000],
    demoRatios := [1000], bioRatios := [1000] }

/-! ## Anomaly engine (anomaly_detection.py) -/

/-- The three anomaly flags. -/
inductive Flag where
  | normal
  | warning
  | critical
deriving DecidableEq

/-- One row of the district_metrics frame inside
AnomalyDetector.detect_anomalies_rule_based, after the state statistics
merge: the fields classify_anomaly reads. NaN-free rows are modeled; the
state statistics exist for every district after the left merge on state. -/
structure ARow where
  update_ratio_mean : ℚ
  state_update_ratio_mean : ℚ
  state_update_ratio_std : ℚ
  biometric_compliance : ℚ
  total_holders : ℚ
  total_updates : ℚ

/-- classify_anomaly: the four-rule cascade, first match wins. The literal
0.1 of rule 2 is the rational 1/10. -/
def classifyAnomaly (threshold_std : ℚ) (r : ARow) : Flag :=
  if r.update_ratio_mean > 10 * r.state_update_ratio_mean then Flag.critical
  else if r.biometric_compliance < 1/10 then Flag.warning
  else if |r.update_ratio_mean - r.state_update_ratio_mean| >
      threshold_std * r.state_update_ratio_std then Flag.warning
  else if r.total_holders > 1000 ∧ r.total_updates = 0 then Flag.critical
  else Flag.normal

/-- The index of the rule that fires in classify_anomaly (5 when no rule
matches and the row is normal); same cascade, instrumented. -/
def firedRule (threshold_std : ℚ) (r : ARow) : ℕ :=
  if r.update_ratio_mean > 10 * r.state_update_ratio_mean then 1
  else if r.biometric_compliance < 1/10 then 2
  else if |r.update_ratio_mean - r.state_update_ratio_mean| >
      threshold_std * r.state_update_ratio_std then 3
  else if r.total_holders > 1000 ∧ r.total_updates = 0 then 4
  else 5

/-- AnomalyDetector.get_anomaly_summary: the row count and the counts of
rows classified normal, warning and critical. -/
def anomalySummary (threshold_std : ℚ) (rows : List ARow) : ℕ × ℕ × ℕ × ℕ :=
  (rows.length,
   (rows.filter (fun r => classifyAnomaly threshold_std r = Flag.normal)).length,
   (rows.filter (fun r => classifyAnomaly threshold_std r = Flag.warning)).length,
   (rows.filter (fun r => classifyAnomaly threshold_std r = Flag.critical)).length)

/-- A district of a state with zero update activity everywhere: its own
mean ratio 0 equals 12 times the state mean 0, it is populated with zero
updates, and its compliance is 0. -/
def cexARow : ARow :=
  { update_ratio_mean := 0, state_update_ratio_mean := 0,
    state_update_ratio_std := 0, biometric_compliance := 0,
    total_holders := 2000, total_updates := 0 }

/-- A district whose ratio 12 is 12 times the positive state mean 1. -/
def witARow : ARow :=
  { update_ratio_mean := 12, state_update_ratio_mean := 1,
    state_update_ratio_std := 0, biometric_compliance := 0,
    total_holders := 2000, total_updates := 0 }

/-! ## Geo linker aggregation (GeoJSONUtils._merge_district_level) -/

/-- One metric row entering the aggregation before the geo join, carrying
the fields whose aggregation policies differ: anomaly_score (max),
anomaly_flag (most severe), update_ratio (max), and a representative
other metric column, biometric_compliance (mean). -/
structure GeoRow where
  anomaly_score : ℚ
  anomaly_flag : Flag
  update_ratio : ℚ
  biometric_compliance : ℚ

/-- The anomaly_flag aggregation lambda of _merge_district_level: critical
if any contributing row is critical, else warning if any is warning,
else normal. -/
def aggFlag (fs : List Flag) : Flag :=
  if Flag.critical ∈ fs then Flag.critical
  else if Flag.warning ∈ fs then Flag.warning
  else Flag.normal

/-- The aggregation of one group of rows sharing a normalized
(state, district): max for anomaly_score and update_ratio, the severity
rule for anomaly_flag, mean for the other metric columns. -/
def mergeGroup (g : List GeoRow) : GeoRow :=
  { anomaly_score := maxQ (g.map GeoRow.anomaly_score)
    anomaly_flag := aggFlag (g.map GeoRow.anomaly_flag)
    update_ratio := maxQ (g.map GeoRow.update_ratio)
    biometric_compliance := meanQ (g.map GeoRow.biometric_compliance) }

/-- The Bangalore-spelling row contributing anomaly_score 0.3. -/
def geoA : GeoRow :=
  { anomaly_score := 3/10, anomaly_flag := Flag.warning,
    update_ratio := 1, biometric_compliance := 1/2 }

/-- The Bengaluru-spelling row contributing anomaly_score 0.9. -/
def geoB : GeoRow :=
  { anomaly_score := 9/10, anomaly_flag := Flag.critical,
    update_ratio := 2, biometric_compliance := 1 }

/-! ## Dataset loading (DataProcessor, data_processor.py) -/

/-- One raw CSV row of a source dataset. -/
structure RawRecord where
  date : String
  state : String
  district : String
  values : List ℚ

/-- pandas.concat over a list of frames with ignore_index: raises
ValueError("No objects to concatenate") when the list is empty, else
stacks the rows. -/
def concatTables (dfs : List (List RawRecord)) : Except String (List RawRecord) :=
  if dfs.isEmpty then Except.error "No objects to concatenate"
  else Except.ok dfs.flatten

/-- DataProcessor.load_enrolment_data: glob the source directory, read one
frame per CSV file, concatenate. Zero files found give the empty frame
list to pd.concat. -/
def load_enrolment_data (csvFiles : List (List RawRecord)) :
    Except String (List RawRecord) :=
  concatTables csvFiles

/-! ## Fuzzy matching (GeoJSONUtils.fuzzy_match_districts) -/

/-- One folding step of thefuzz process.extractOne: keep the best-scoring
candidate seen so far, earlier targets winning ties. -/
def pickBetter (scorer : String → String → ℚ) (name : String)
    (best : String × ℚ) (u : String) : String × ℚ :=
  if best.2 < scorer name u then (u, scorer name u) else best

/-- thefuzz process.extractOne: the best match with its score, none only
when the target list is empty. The similarity scorer is abstract: the
theorems hold for every scoring function. -/
def extractOne (scorer : String → String → ℚ) (name : String) :
    List String → Option (String × ℚ)
  | [] => none
  | t :: ts => some (ts.foldl (pickBetter scorer name) (t, scorer name t))

/-- GeoJSONUtils.fuzzy_match_districts: skip empty names and names already
in the target set; otherwise accept the best match only when its score
reaches the threshold. -/
def fuzzyMatchDistricts (scorer : String → String → ℚ)
    (sources targets : List String) (threshold : ℚ) :
    List (String × String) :=
  sources.foldr (fun name acc =>
    if name = "" ∨ name ∈ targets then acc
    else
      match extractOne scorer name targets with
      | none => acc
      | some (best, score) =>
        if threshold ≤ score then (name, best) :: acc else acc) []

/-- The concrete scorer of the C9 witness. -/
def witScorer (a b : String) : ℚ := if a = b then 100 else 90

theorem optNonneg_some {o : Option ℚ} {v : ℚ} (h : OptNonneg o)
    (hv : o = some v) : 0 ≤ v := by
  rw [hv] at h
  exact h

/-! ## Lemmas about the character-level machinery -/

theorem allP_dropWhile_nil {p : Char → Bool} :
    ∀ {l : List Char}, (∀ c ∈ l, p c) → l.dropWhile p = []
  | [], _ => rfl
  | c :: cs, h => by
    have hc : p c := h c (List.mem_cons_self c cs)
    simp only [List.dropWhile, hc]
    exact allP_dropWhile_nil (fun d hd => h d (List.mem_cons_of_mem c hd))

theorem dropWhile_nil_allP {p : Char → Bool} :
    ∀ {l : List Char}, l.dropWhile p = [] → ∀ c ∈ l, p c
  | [], _, c, hc => absurd hc (List.not_mem_nil c)
  | a :: cs, h, c, hc => by
    by_cases ha : p a
    · simp only [List.dropWhile, ha] at h
      rcases List.mem_cons.mp hc with rfl | hmem
      · exact ha
      · exact dropWhile_nil_allP h c hmem
    · simp only [List.dropWhile, ha] at h
      simp at h

theorem dropWhile_head_false {p : Char → Bool} :
    ∀ {l : List Char} {a : Char} {r : List Char},
      l.dropWhile p = a :: r → p a = false
  | [], a, r, h => by simp [List.dropWhile] at h
  | b :: cs, a, r, h => by
    by_cases hb : p b
    · simp only [List.dropWhile, hb] at h
      exact dropWhile_head_false h
    · simp only [List.dropWhile, hb] at h
      injection h with h1 _
      subst h1
      simpa using hb

theorem dropWhile_dropWhile {p : Char → Bool} (l : List Char) :
    (l.dropWhile p).dropWhile p = l.dropWhile p := by
  cases h : l.dropWhile p with
  | nil => rfl
  | cons a r =>
    have : p a = false := dropWhile_head_false h
    simp [List.dropWhile, this]

theorem mem_takeWhile_sat {p : Char → Bool} :
    ∀ {l : List Char} {c : Char}, c ∈ l.takeWhile p → p c
  | [], c, hc => absurd hc (List.not_mem_nil c)
  | a :: cs, c, hc => by
    by_cases ha : p a
    · simp only [List.takeWhile, ha] at hc
      rcases List.mem_cons.mp hc with rfl | hmem
      · exact ha
      · exact mem_takeWhile_sat hmem
    · simp only [List.takeWhile, ha] at hc
      simp at hc

theorem dropWhile_suffix_exists {p : Char → Bool} (l : List Char) :
    ∃ t, l = t ++ l.dropWhile p ∧ ∀ c ∈ t, p c :=
  ⟨l.takeWhile p, (List.takeWhile_append_dropWhile p l).symm,
    fun _ hc => mem_takeWhile_sat hc⟩

theorem trimEnd_spec (m : List Char) :
    ∃ t, m = trimEnd m ++ t ∧ ∀ c ∈ t, isSpaceChar c := by
  obtain ⟨t, ht, hall⟩ := dropWhile_suffix_exists (p := isSpaceChar) m.reverse
  refine ⟨t.reverse, ?_, fun c hc => hall c (List.mem_reverse.mp hc)⟩
  have := congrArg List.reverse ht
  simpa [trimEnd] using this

theorem dropSpaces_trimEnd_of_dropSpaces (m : List Char) :
    dropSpaces (trimEnd (dropSpaces m)) = trimEnd (dropSpaces m) := by
  cases h : trimEnd (dropSpaces m) with
  | nil => rfl
  | cons d r =>
    obtain ⟨t, ht, _⟩ := trimEnd_spec (dropSpaces m)
    rw [h] at ht
    have hd : isSpaceChar d = false := by
      have : dropSpaces m = d :: (r ++ t) := by simpa using ht
      exact dropWhile_head_false (p := isSpaceChar) this
    simp [dropSpaces, List.dropWhile, hd]

theorem trimEnd_trimEnd (m : List Char) : trimEnd (trimEnd m) = trimEnd m := by
  simp [trimEnd, dropWhile_dropWhile]

theorem stripL_idem (cs : List Char) : stripL (stripL cs) = stripL cs := by
  unfold stripL
  rw [dropSpaces_trimEnd_of_dropSpaces, trimEnd_trimEnd]

theorem stripL_nil_iff (cs : List Char) :
    stripL cs = [] ↔ ∀ c ∈ cs, isSpaceChar c := by
  constructor
  · intro h c hc
    unfold stripL trimEnd at h
    have h2 : (dropSpaces cs).reverse.dropWhile isSpaceChar = [] := by
      have := congrArg List.reverse h
      simpa using this
    have hall : ∀ c ∈ dropSpaces cs, isSpaceChar c := fun d hd =>
      dropWhile_nil_allP h2 d (List.mem_reverse.mpr hd)
    have hc2 : c ∈ cs.takeWhile isSpaceChar ++ cs.dropWhile isSpaceChar := by
      rw [List.takeWhile_append_dropWhile]
      exact hc
    rcases List.mem_append.mp hc2 with h1 | h1
    · exact mem_takeWhile_sat h1
    · exact hall c h1
  · intro h
    have : dropSpaces cs = [] := allP_dropWhile_nil h
    simp [stripL, this, trimEnd]

theorem wordsL_cons_space {c : Char} (h : isSpaceChar c) :
    ∀ (rest : List Char), wordsL (c :: rest) = wordsL rest
  | [] => by simp [wordsL, h]
  | d :: cs => by simp [wordsL, h]

theorem wordsL_nil_allspace :
    ∀ {cs : List Char}, wordsL cs = [] → ∀ c ∈ cs, isSpaceChar c
  | [], _, c, hc => absurd hc (List.not_mem_nil c)
  | [a], h, c, hc => by
    by_cases ha : isSpaceChar a
    · rcases List.mem_singleton.mp hc with rfl
      exact ha
    · simp [wordsL, ha] at h
  | a :: d :: cs, h, c, hc => by
    by_cases ha : isSpaceChar a
    · rw [wordsL_cons_space ha] at h
      rcases List.mem_cons.mp hc with rfl | hmem
      · exact ha
      · exact wordsL_nil_allspace h c hmem
    · exfalso
      simp only [wordsL, ha, if_false] at h
      rcases hw : wordsL (d :: cs) with _ | ⟨w, ws⟩
      · rw [hw] at h
        simp at h
      · rw [hw] at h
        by_cases hd : isSpaceChar d <;> simp [hd] at h

theorem allspace_wordsL_nil :
    ∀ {cs : List Char}, (∀ c ∈ cs, isSpaceChar c) → wordsL cs = []
  | [], _ => rfl
  | [a], h => by simp [wordsL, h a (List.mem_singleton.mpr rfl)]
  | a :: d :: cs, h => by
    rw [wordsL_cons_space (h a (List.mem_cons_self a (d :: cs)))]
    exact allspace_wordsL_nil (fun c hc => h c (List.mem_cons_of_mem a hc))

theorem wordsL_append_spaces {t : List Char} (ht : ∀ c ∈ t, isSpaceChar c) :
    ∀ (m : List Char), wordsL (m ++ t) = wordsL m
  | [] => by simpa using allspace_wordsL_nil ht
  | [c] => by
    by_cases hc : isSpaceChar c
    · rw [List.singleton_append, wordsL_cons_space hc, allspace_wordsL_nil ht]
      simp [wordsL, hc]
    · cases t with
      | nil => simp
      | cons d t2 =>
        have hd : isSpaceChar d = true := ht d (List.mem_cons_self d t2)
        have hrest : wordsL (d :: t2) = [] := allspace_wordsL_nil ht
        simp [wordsL, hc, hrest, hd]
  | c :: d :: m2 => by
    have ih := wordsL_append_spaces ht (d :: m2)
    by_cases hc : isSpaceChar c
    · rw [List.cons_append, wordsL_cons_space hc, wordsL_cons_space hc]
      exact ih
    · have harm : (c :: d :: m2) ++ t = c :: d :: (m2 ++ t) := by simp
      rw [harm]
      simp only [wordsL, hc, if_false]
      rw [show d :: (m2 ++ t) = (d :: m2) ++ t from rfl, ih]

theorem wordsL_dropSpaces : ∀ (cs : List Char), wordsL (dropSpaces cs) = wordsL cs
  | [] => rfl
  | c :: cs => by
    by_cases hc : isSpaceChar c
    · rw [wordsL_cons_space hc, ← wordsL_dropSpaces cs]
      simp [dropSpaces, List.dropWhile, hc]
    · simp [dropSpaces, List.dropWhile, hc]

theorem wordsL_stripL (cs : List Char) : wordsL (stripL cs) = wordsL cs := by
  unfold stripL
  obtain ⟨t, ht, hall⟩ := trimEnd_spec (dropSpaces cs)
  calc wordsL (trimEnd (dropSpaces cs))
      = wordsL (trimEnd (dropSpaces cs) ++ t) := (wordsL_append_spaces hall _).symm
    _ = wordsL (dropSpaces cs) := by rw [← ht]
    _ = wordsL cs := wordsL_dropSpaces cs

theorem wordsL_wf :
    ∀ (cs : List Char), ∀ w ∈ wordsL cs, w ≠ [] ∧ ∀ c ∈ w, nonSpace c
  | [], w, hw => absurd hw (List.not_mem_nil w)
  | [a], w, hw => by
    by_cases ha : isSpaceChar a
    · simp [wordsL, ha] at hw
    · simp [wordsL, ha] at hw
      subst hw
      refine ⟨by simp, ?_⟩
      intro c hc
      rcases List.mem_singleton.mp hc with rfl
      simp [nonSpace, ha]
  | a :: d :: cs, w, hw => by
    by_cases ha : isSpaceChar a
    · rw [wordsL_cons_space ha] at hw
      exact wordsL_wf (d :: cs) w hw
    · simp only [wordsL, ha, Bool.false_eq_true, if_false] at hw
      rcases hrec : wordsL (d :: cs) with _ | ⟨w2, ws⟩
      · rw [hrec] at hw
        simp only [List.mem_singleton] at hw
        subst hw
        exact ⟨by simp, fun c hc => by
          rcases List.mem_singleton.mp hc with rfl
          simp [nonSpace, ha]⟩
      · rw [hrec] at hw
        have hwf := fun w hw => wordsL_wf (d :: cs) w (hrec ▸ hw)
        by_cases hd : isSpaceChar d
        · simp only [hd, if_true] at hw
          rcases List.mem_cons.mp hw with rfl | hmem
          · exact ⟨by simp, fun c hc => by
              rcases List.mem_singleton.mp hc with rfl
              simp [nonSpace, ha]⟩
          · exact hwf w (List.mem_cons.mpr (by simpa using hmem))
        · simp only [hd, if_false] at hw
          rcases List.mem_cons.mp hw with rfl | hmem
          · have h2 := hwf w2 (List.mem_cons_self w2 ws)
            refine ⟨by simp, fun c hc => ?_⟩
            rcases List.mem_cons.mp hc with rfl | hmem2
            · simp [nonSpace, ha]
            · exact h2.2 c hmem2
          · exact hwf w (List.mem_cons_of_mem w2 hmem)

theorem wordsL_word :
    ∀ {w : List Char}, w ≠ [] → (∀ c ∈ w, nonSpace c) → wordsL w = [w]
  | [], h, _ => absurd rfl h
  | [c], _, hall => by
    have := hall c (List.mem_singleton.mpr rfl)
    simp only [nonSpace, Bool.not_eq_true'] at this
    simp [wordsL, this]
  | c :: d :: w2, _, hall => by
    have hc := hall c (List.mem_cons_self c (d :: w2))
    have hd := hall d (List.mem_cons_of_mem c (List.mem_cons_self d w2))
    have hrec : wordsL (d :: w2) = [d :: w2] :=
      wordsL_word (by simp) (fun x hx => hall x (List.mem_cons_of_mem c hx))
    simp only [nonSpace, Bool.not_eq_true'] at hc hd
    simp [wordsL, hc, hd, hrec]

theorem wordsL_word_append {rest : List Char} :
    ∀ {w : List Char}, w ≠ [] → (∀ c ∈ w, nonSpace c) →
      wordsL (w ++ ' ' :: rest) = w :: wordsL rest
  | [], h, _ => absurd rfl h
  | [c], _, hall => by
    have hc := hall c (List.mem_singleton.mpr rfl)
    simp only [nonSpace, Bool.not_eq_true'] at hc
    have hspc : isSpaceChar ' ' = true := by decide
    have hsp : wordsL (' ' :: rest) = wordsL rest := wordsL_cons_space hspc rest
    rcases hrec : wordsL rest with _ | ⟨w2, ws⟩
    · simp [wordsL, hc, hsp, hrec]
    · simp [wordsL, hc, hsp, hrec, hspc]
  | c :: d :: w2, _, hall => by
    have hc := hall c (List.mem_cons_self c (d :: w2))
    have hd := hall d (List.mem_cons_of_mem c (List.mem_cons_self d w2))
    have hrec : wordsL ((d :: w2) ++ ' ' :: rest) = (d :: w2) :: wordsL rest :=
      wordsL_word_append (by simp) (fun x hx => hall x (List.mem_cons_of_mem c hx))
    simp only [nonSpace, Bool.not_eq_true'] at hc hd
    rw [List.cons_append] at hrec
    have harm : (c :: d :: w2) ++ ' ' :: rest = c :: d :: (w2 ++ ' ' :: rest) := by simp
    rw [harm]
    simp [wordsL, hc, hd, hrec]

theorem wordsL_sepJoin :
    ∀ {ws : List (List Char)}, (∀ w ∈ ws, w ≠ [] ∧ ∀ c ∈ w, nonSpace c) →
      wordsL (sepJoin ws) = ws
  | [], _ => rfl
  | [w], h => by
    have hw := h w (List.mem_singleton.mpr rfl)
    simpa [sepJoin] using wordsL_word hw.1 hw.2
  | w :: v :: ws, h => by
    have hw := h w (List.mem_cons_self w (v :: ws))
    have hrec : wordsL (sepJoin (v :: ws)) = v :: ws :=
      wordsL_sepJoin (fun x hx => h x (List.mem_cons_of_mem w hx))
    have hp : sepJoin (w :: v :: ws) = w ++ ' ' :: sepJoin (v :: ws) := rfl
    rw [hp, wordsL_word_append hw.1 hw.2, hrec]

theorem sepJoin_ne_nil :
    ∀ {ws : List (List Char)}, (∀ w ∈ ws, w ≠ []) → ws ≠ [] → sepJoin ws ≠ []
  | [], _, h => absurd rfl h
  | [w], h, _ => by simpa [sepJoin] using h w (List.mem_singleton.mpr rfl)
  | w :: v :: ws, h, _ => by
    have hw := h w (List.mem_cons_self w (v :: ws))
    have hp : sepJoin (w :: v :: ws) = w ++ ' ' :: sepJoin (v :: ws) := rfl
    rw [hp]
    cases w with
    | nil => exact absurd rfl hw
    | cons c cs => simp

/-! ## String-level corollaries and table facts -/

theorem mk_data (s : String) : String.mk s.data = s := by cases s; rfl

theorem str_eq_empty_iff {s : String} : s = "" ↔ s.data = [] := by
  cases s with
  | mk l =>
    constructor
    · intro h
      have h2 := congrArg String.data h
      exact h2
    · intro h
      subst h
      rfl

theorem pyStrip_pyStrip (s : String) : pyStrip (pyStrip s) = pyStrip s :=
  congrArg String.mk (stripL_idem s.data)

theorem lookupName_mem {k v : String} :
    ∀ {m : List (String × String)}, lookupName k m = some v → (k, v) ∈ m
  | [], h => by simp [lookupName] at h
  | p :: ps, h => by
    by_cases hp : p.1 = k
    · simp only [lookupName, hp, if_true] at h
      injection h with h2
      have hpk : p = (k, v) := by
        cases p
        simp only [Prod.mk.injEq]
        exact ⟨hp, h2⟩
      rw [← hpk]
      exact List.mem_cons_self p ps
    · simp only [lookupName, hp, if_false] at h
      exact List.mem_cons_of_mem p (lookupName_mem h)

set_option maxRecDepth 40000 in
theorem stateValueFixed0 : normalizeStateName (some "Jammu and Kashmir") = "Jammu and Kashmir" := by decide

set_option maxRecDepth 40000 in
theorem stateValueFixed1 : normalizeStateName (some "DNH and DD") = "DNH and DD" := by decide

set_option maxRecDepth 40000 in
theorem stateValueFixed2 : normalizeStateName (some "Puducherry") = "Puducherry" := by decide

set_option maxRecDepth 40000 in
theorem stateValueFixed3 : normalizeStateName (some "Tamil Nadu") = "Tamil Nadu" := by decide

set_option maxRecDepth 40000 in
theorem stateValueFixed4 : normalizeStateName (some "West Bengal") = "West Bengal" := by decide

set_option maxRecDepth 40000 in
theorem stateValueFixed5 : normalizeStateName (some "Uttar Pradesh") = "Uttar Pradesh" := by decide

set_option maxRecDepth 40000 in
theorem stateValueFixed6 : normalizeStateName (some "Himachal Pradesh") = "Himachal Pradesh" := by decide

set_option maxRecDepth 40000 in
theorem stateValueFixed7 : normalizeStateName (some "Andhra Pradesh") = "Andhra Pradesh" := by decide

set_option maxRecDepth 40000 in
theorem stateValueFixed8 : normalizeStateName (some "Arunachal Pradesh") = "Arunachal Pradesh" := by decide

set_option maxRecDepth 40000 in
theorem stateValueFixed9 : normalizeStateName (some "Madhya Pradesh") = "Madhya Pradesh" := by decide

set_option maxRecDepth 40000 in
theorem stateValueFixed10 : normalizeStateName (some "Chhattisgarh") = "Chhattisgarh" := by decide

set_option maxRecDepth 40000 in
theorem stateValueFixed11 : normalizeStateName (some "Uttarakhand") = "Uttarakhand" := by decide

/-- Every value of the state alias table is a fixed point of the
normalizer, assembled from the per-value checks above. -/
theorem stateMappings_fixed :
    ∀ p ∈ stateMappings, normalizeStateName (some p.2) = p.2 := by
  unfold stateMappings
  exact List.forall_mem_cons.mpr ⟨stateValueFixed0,
    List.forall_mem_cons.mpr ⟨stateValueFixed0,
    List.forall_mem_cons.mpr ⟨stateValueFixed1,
    List.forall_mem_cons.mpr ⟨stateValueFixed1,
    List.forall_mem_cons.mpr ⟨stateValueFixed1,
    List.forall_mem_cons.mpr ⟨stateValueFixed1,
    List.forall_mem_cons.mpr ⟨stateValueFixed2,
    List.forall_mem_cons.mpr ⟨stateValueFixed3,
    List.forall_mem_cons.mpr ⟨stateValueFixed4,
    List.forall_mem_cons.mpr ⟨stateValueFixed4,
    List.forall_mem_cons.mpr ⟨stateValueFixed5,
    List.forall_mem_cons.mpr ⟨stateValueFixed6,
    List.forall_mem_cons.mpr ⟨stateValueFixed7,
    List.forall_mem_cons.mpr ⟨stateValueFixed8,
    List.forall_mem_cons.mpr ⟨stateValueFixed9,
    List.forall_mem_cons.mpr ⟨stateValueFixed10,
    List.forall_mem_cons.mpr ⟨stateValueFixed10,
    List.forall_mem_cons.mpr ⟨stateValueFixed11,
    List.forall_mem_cons.mpr ⟨stateValueFixed11,
    List.forall_mem_nil _⟩⟩⟩⟩⟩⟩⟩⟩⟩⟩⟩⟩⟩⟩⟩⟩⟩⟩⟩

set_option maxRecDepth 40000 in
theorem distValueFixed0 : normalizeDistrictName (some "Bengaluru Urban") = "Bengaluru Urban" := by decide

set_option maxRecDepth 40000 in
theorem distValueFixed1 : normalizeDistrictName (some "Bengaluru Rural") = "Bengaluru Rural" := by decide

set_option maxRecDepth 40000 in
theorem distValueFixed2 : normalizeDistrictName (some "Belagavi") = "Belagavi" := by decide

set_option maxRecDepth 40000 in
theorem distValueFixed3 : normalizeDistrictName (some "Ballari") = "Ballari" := by decide

set_option maxRecDepth 40000 in
theorem distValueFixed4 : normalizeDistrictName (some "Vijayapura") = "Vijayapura" := by decide

set_option maxRecDepth 40000 in
theorem distValueFixed5 : normalizeDistrictName (some "Chamarajanagara") = "Chamarajanagara" := by decide

set_option maxRecDepth 40000 in
theorem distValueFixed6 : normalizeDistrictName (some "Chikkaballapura") = "Chikkaballapura" := by decide

set_option maxRecDepth 40000 in
theorem distValueFixed7 : normalizeDistrictName (some "Chikkamagaluru") = "Chikkamagaluru" := by decide

set_option maxRecDepth 40000 in
theorem distValueFixed8 : normalizeDistrictName (some "Dakshin Kannad") = "Dakshin Kannad" := by decide

set_option maxRecDepth 40000 in
theorem distValueFixed9 : normalizeDistrictName (some "Kalaburagi") = "Kalaburagi" := by decide

set_option maxRecDepth 40000 in
theorem distValueFixed10 : normalizeDistrictName (some "Dharwad") = "Dharwad" := by decide

set_option maxRecDepth 40000 in
theorem distValueFixed11 : normalizeDistrictName (some "Mysuru") = "Mysuru" := by decide

set_option maxRecDepth 40000 in
theorem distValueFixed12 : normalizeDistrictName (some "Shivamogga") = "Shivamogga" := by decide

set_option maxRecDepth 40000 in
theorem distValueFixed13 : normalizeDistrictName (some "Tumakuru") = "Tumakuru" := by decide

set_option maxRecDepth 40000 in
theorem distValueFixed14 : normalizeDistrictName (some "Uttar Kannad") = "Uttar Kannad" := by decide

set_option maxRecDepth 40000 in
theorem distValueFixed15 : normalizeDistrictName (some "Bagalkot") = "Bagalkot" := by decide

set_option maxRecDepth 40000 in
theorem distValueFixed16 : normalizeDistrictName (some "Ahmednagar") = "Ahmednagar" := by decide

set_option maxRecDepth 40000 in
theorem distValueFixed17 : normalizeDistrictName (some "Bid") = "Bid" := by decide

set_option maxRecDepth 40000 in
theorem distValueFixed18 : normalizeDistrictName (some "Buldana") = "Buldana" := by decide

set_option maxRecDepth 40000 in
theorem distValueFixed19 : normalizeDistrictName (some "Gondiya") = "Gondiya" := by decide

set_option maxRecDepth 40000 in
theorem distValueFixed20 : normalizeDistrictName (some "Mumbai Suburban") = "Mumbai Suburban" := by decide

set_option maxRecDepth 40000 in
theorem distValueFixed21 : normalizeDistrictName (some "Nashik") = "Nashik" := by decide

set_option maxRecDepth 40000 in
theorem distValueFixed22 : normalizeDistrictName (some "Nandurbar") = "Nandurbar" := by decide

set_option maxRecDepth 40000 in
theorem distValueFixed23 : normalizeDistrictName (some "Raigarh") = "Raigarh" := by decide

set_option maxRecDepth 40000 in
theorem distValueFixed24 : normalizeDistrictName (some "Raigad") = "Raigad" := by decide

set_option maxRecDepth 40000 in
theorem distValueFixed25 : normalizeDistrictName (some "Thane") = "Thane" := by decide

set_option maxRecDepth 40000 in
theorem distValueFixed26 : normalizeDistrictName (some "Prayagraj") = "Prayagraj" := by decide

set_option maxRecDepth 40000 in
theorem distValueFixed27 : normalizeDistrictName (some "Bara Banki") = "Bara Banki" := by decide

set_option maxRecDepth 40000 in
theorem distValueFixed28 : normalizeDistrictName (some "Ayodhya") = "Ayodhya" := by decide

set_option maxRecDepth 40000 in
theorem distValueFixed29 : normalizeDistrictName (some "Firozabad") = "Firozabad" := by decide

set_option maxRecDepth 40000 in
theorem distValueFixed30 : normalizeDistrictName (some "Gautam Buddh Nagar") = "Gautam Buddh Nagar" := by decide

set_option maxRecDepth 40000 in
theorem distValueFixed31 : normalizeDistrictName (some "Kanpur Dehat") = "Kanpur Dehat" := by decide

set_option maxRecDepth 40000 in
theorem distValueFixed32 : normalizeDistrictName (some "Kanpur Nagar") = "Kanpur Nagar" := by decide

set_option maxRecDepth 40000 in
theorem distValueFixed33 : normalizeDistrictName (some "Kheri") = "Kheri" := by decide

set_option maxRecDepth 40000 in
theorem distValueFixed34 : normalizeDistrictName (some "Amroha") = "Amroha" := by decide

set_option maxRecDepth 40000 in
theorem distValueFixed35 : normalizeDistrictName (some "Kasganj") = "Kasganj" := by decide

set_option maxRecDepth 40000 in
theorem distValueFixed36 : normalizeDistrictName (some "Hathras") = "Hathras" := by decide

set_option maxRecDepth 40000 in
theorem distValueFixed37 : normalizeDistrictName (some "Rae Bareli") = "Rae Bareli" := by decide

set_option maxRecDepth 40000 in
theorem distValueFixed38 : normalizeDistrictName (some "Bhadohi") = "Bhadohi" := by decide

set_option maxRecDepth 40000 in
theorem distValueFixed39 : normalizeDistrictName (some "Siddharthnagar") = "Siddharthnagar" := by decide

set_option maxRecDepth 40000 in
theorem distValueFixed40 : normalizeDistrictName (some "Shrawasti") = "Shrawasti" := by decide

set_option maxRecDepth 40000 in
theorem distValueFixed41 : normalizeDistrictName (some "Kaimur") = "Kaimur" := by decide

set_option maxRecDepth 40000 in
theorem distValueFixed42 : normalizeDistrictName (some "Jehanabad") = "Jehanabad" := by decide

set_option maxRecDepth 40000 in
theorem distValueFixed43 : normalizeDistrictName (some "Pashchim Champaran") = "Pashchim Champaran" := by decide

set_option maxRecDepth 40000 in
theorem distValueFixed44 : normalizeDistrictName (some "Purba Champaran") = "Purba Champaran" := by decide

set_option maxRecDepth 40000 in
theorem distValueFixed45 : normalizeDistrictName (some "Sheikhpura") = "Sheikhpura" := by decide

set_option maxRecDepth 40000 in
theorem distValueFixed46 : normalizeDistrictName (some "Purnia") = "Purnia" := by decide

set_option maxRecDepth 40000 in
theorem distValueFixed47 : normalizeDistrictName (some "Purba Bardhaman") = "Purba Bardhaman" := by decide

set_option maxRecDepth 40000 in
theorem distValueFixed48 : normalizeDistrictName (some "Koch Bihar") = "Koch Bihar" := by decide

set_option maxRecDepth 40000 in
theorem distValueFixed49 : normalizeDistrictName (some "Darjeeling") = "Darjeeling" := by decide

set_option maxRecDepth 40000 in
theorem distValueFixed50 : normalizeDistrictName (some "Hooghly") = "Hooghly" := by decide

set_option maxRecDepth 40000 in
theorem distValueFixed51 : normalizeDistrictName (some "Haora") = "Haora" := by decide

set_option maxRecDepth 40000 in
theorem distValueFixed52 : normalizeDistrictName (some "Malda") = "Malda" := by decide

set_option maxRecDepth 40000 in
theorem distValueFixed53 : normalizeDistrictName (some "North 24 Parganas") = "North 24 Parganas" := by decide

set_option maxRecDepth 40000 in
theorem distValueFixed54 : normalizeDistrictName (some "South 24 Parganas") = "South 24 Parganas" := by decide

set_option maxRecDepth 40000 in
theorem distValueFixed55 : normalizeDistrictName (some "Purulia") = "Purulia" := by decide

set_option maxRecDepth 40000 in
theorem distValueFixed56 : normalizeDistrictName (some "Ahmadabad") = "Ahmadabad" := by decide

set_option maxRecDepth 40000 in
theorem distValueFixed57 : normalizeDistrictName (some "Banas Kantha") = "Banas Kantha" := by decide

set_option maxRecDepth 40000 in
theorem distValueFixed58 : normalizeDistrictName (some "Chhotaudepur") = "Chhotaudepur" := by decide

set_option maxRecDepth 40000 in
theorem distValueFixed59 : normalizeDistrictName (some "Dohad") = "Dohad" := by decide

set_option maxRecDepth 40000 in
theorem distValueFixed60 : normalizeDistrictName (some "Devbhumi Dwaraka") = "Devbhumi Dwaraka" := by decide

set_option maxRecDepth 40000 in
theorem distValueFixed61 : normalizeDistrictName (some "Dhaulpur") = "Dhaulpur" := by decide

set_option maxRecDepth 40000 in
theorem distValueFixed62 : normalizeDistrictName (some "Kachchh") = "Kachchh" := by decide

set_option maxRecDepth 40000 in
theorem distValueFixed63 : normalizeDistrictName (some "Mahesana") = "Mahesana" := by decide

set_option maxRecDepth 40000 in
theorem distValueFixed64 : normalizeDistrictName (some "Panchmahal") = "Panchmahal" := by decide

set_option maxRecDepth 40000 in
theorem distValueFixed65 : normalizeDistrictName (some "Sabarkantha") = "Sabarkantha" := by decide

set_option maxRecDepth 40000 in
theorem distValueFixed66 : normalizeDistrictName (some "Dang") = "Dang" := by decide

set_option maxRecDepth 40000 in
theorem distValueFixed67 : normalizeDistrictName (some "Vadodara") = "Vadodara" := by decide

set_option maxRecDepth 40000 in
theorem distValueFixed68 : normalizeDistrictName (some "Ajmer") = "Ajmer" := by decide

set_option maxRecDepth 40000 in
theorem distValueFixed69 : normalizeDistrictName (some "Nagaur") = "Nagaur" := by decide

set_option maxRecDepth 40000 in
theorem distValueFixed70 : normalizeDistrictName (some "Jaipur") = "Jaipur" := by decide

set_option maxRecDepth 40000 in
theorem distValueFixed71 : normalizeDistrictName (some "Sawai Madhopur") = "Sawai Madhopur" := by decide

set_option maxRecDepth 40000 in
theorem distValueFixed72 : normalizeDistrictName (some "Jalor") = "Jalor" := by decide

set_option maxRecDepth 40000 in
theorem distValueFixed73 : normalizeDistrictName (some "Alwar") = "Alwar" := by decide

set_option maxRecDepth 40000 in
theorem distValueFixed74 : normalizeDistrictName (some "Sikar") = "Sikar" := by decide

set_option maxRecDepth 40000 in
theorem distValueFixed75 : normalizeDistrictName (some "Jodhpur") = "Jodhpur" := by decide

set_option maxRecDepth 40000 in
theorem distValueFixed76 : normalizeDistrictName (some "Udaipur") = "Udaipur" := by decide

set_option maxRecDepth 40000 in
theorem distValueFixed77 : normalizeDistrictName (some "Bhilwara") = "Bhilwara" := by decide

set_option maxRecDepth 40000 in
theorem distValueFixed78 : normalizeDistrictName (some "Bundi") = "Bundi" := by decide

set_option maxRecDepth 40000 in
theorem distValueFixed79 : normalizeDistrictName (some "Chittorgarh") = "Chittorgarh" := by decide

set_option maxRecDepth 40000 in
theorem distValueFixed80 : normalizeDistrictName (some "Jhunjhunu") = "Jhunjhunu" := by decide

set_option maxRecDepth 40000 in
theorem distValueFixed81 : normalizeDistrictName (some "Budgam") = "Budgam" := by decide

set_option maxRecDepth 40000 in
theorem distValueFixed82 : normalizeDistrictName (some "Bandipore") = "Bandipore" := by decide

set_option maxRecDepth 40000 in
theorem distValueFixed83 : normalizeDistrictName (some "Baramulla") = "Baramulla" := by decide

set_option maxRecDepth 40000 in
theorem distValueFixed84 : normalizeDistrictName (some "Rajouri") = "Rajouri" := by decide

set_option maxRecDepth 40000 in
theorem distValueFixed85 : normalizeDistrictName (some "Shopiyan") = "Shopiyan" := by decide

set_option maxRecDepth 40000 in
theorem distValueFixed86 : normalizeDistrictName (some "Kancheepuram") = "Kancheepuram" := by decide

set_option maxRecDepth 40000 in
theorem distValueFixed87 : normalizeDistrictName (some "Kanniyakumari") = "Kanniyakumari" := by decide

set_option maxRecDepth 40000 in
theorem distValueFixed88 : normalizeDistrictName (some "Tirunelveli") = "Tirunelveli" := by decide

set_option maxRecDepth 40000 in
theorem distValueFixed89 : normalizeDistrictName (some "Nilgiris") = "Nilgiris" := by decide

set_option maxRecDepth 40000 in
theorem distValueFixed90 : normalizeDistrictName (some "Thiruvallur") = "Thiruvallur" := by decide

set_option maxRecDepth 40000 in
theorem distValueFixed91 : normalizeDistrictName (some "Thoothukkudi") = "Thoothukkudi" := by decide

set_option maxRecDepth 40000 in
theorem distValueFixed92 : normalizeDistrictName (some "Tirupathur") = "Tirupathur" := by decide

set_option maxRecDepth 40000 in
theorem distValueFixed93 : normalizeDistrictName (some "Tiruppur") = "Tiruppur" := by decide

set_option maxRecDepth 40000 in
theorem distValueFixed94 : normalizeDistrictName (some "Thiruvarur") = "Thiruvarur" := by decide

set_option maxRecDepth 40000 in
theorem distValueFixed95 : normalizeDistrictName (some "Viluppuram") = "Viluppuram" := by decide

set_option maxRecDepth 40000 in
theorem distValueFixed96 : normalizeDistrictName (some "Angul") = "Angul" := by decide

set_option maxRecDepth 40000 in
theorem distValueFixed97 : normalizeDistrictName (some "Baleshwar") = "Baleshwar" := by decide

set_option maxRecDepth 40000 in
theorem distValueFixed98 : normalizeDistrictName (some "Khordha") = "Khordha" := by decide

set_option maxRecDepth 40000 in
theorem distValueFixed99 : normalizeDistrictName (some "Cuttack") = "Cuttack" := by decide

set_option maxRecDepth 40000 in
theorem distValueFixed100 : normalizeDistrictName (some "Debagarh") = "Debagarh" := by decide

set_option maxRecDepth 40000 in
theorem distValueFixed101 : normalizeDistrictName (some "Jajpur") = "Jajpur" := by decide

set_option maxRecDepth 40000 in
theorem distValueFixed102 : normalizeDistrictName (some "Jagatsinghpur") = "Jagatsinghpur" := by decide

set_option maxRecDepth 40000 in
theorem distValueFixed103 : normalizeDistrictName (some "Kendujhar") = "Kendujhar" := by decide

set_option maxRecDepth 40000 in
theorem distValueFixed104 : normalizeDistrictName (some "Nabarangpur") = "Nabarangpur" := by decide

set_option maxRecDepth 40000 in
theorem distValueFixed105 : normalizeDistrictName (some "Sundargarh") = "Sundargarh" := by decide

set_option maxRecDepth 40000 in
theorem distValueFixed106 : normalizeDistrictName (some "Fatehgarh Sahib") = "Fatehgarh Sahib" := by decide

set_option maxRecDepth 40000 in
theorem distValueFixed107 : normalizeDistrictName (some "Ferozepur") = "Ferozepur" := by decide

set_option maxRecDepth 40000 in
theorem distValueFixed108 : normalizeDistrictName (some "S.A.S. Nagar") = "S.A.S. Nagar" := by decide

set_option maxRecDepth 40000 in
theorem distValueFixed109 : normalizeDistrictName (some "Sri Muktsar Sahib") = "Sri Muktsar Sahib" := by decide

set_option maxRecDepth 40000 in
theorem distValueFixed110 : normalizeDistrictName (some "Tarn Taran") = "Tarn Taran" := by decide

set_option maxRecDepth 40000 in
theorem distValueFixed111 : normalizeDistrictName (some "Gurugram") = "Gurugram" := by decide

set_option maxRecDepth 40000 in
theorem distValueFixed112 : normalizeDistrictName (some "Hisar") = "Hisar" := by decide

set_option maxRecDepth 40000 in
theorem distValueFixed113 : normalizeDistrictName (some "Nuh") = "Nuh" := by decide

set_option maxRecDepth 40000 in
theorem distValueFixed114 : normalizeDistrictName (some "Yamunanagar") = "Yamunanagar" := by decide

set_option maxRecDepth 40000 in
theorem distValueFixed115 : normalizeDistrictName (some "Dadra and Nagar Haveli") = "Dadra and Nagar Haveli" := by decide

set_option maxRecDepth 40000 in
theorem distValueFixed116 : normalizeDistrictName (some "East District") = "East District" := by decide

set_option maxRecDepth 40000 in
theorem distValueFixed117 : normalizeDistrictName (some "North District") = "North District" := by decide

set_option maxRecDepth 40000 in
theorem distValueFixed118 : normalizeDistrictName (some "South District") = "South District" := by decide

set_option maxRecDepth 40000 in
theorem distValueFixed119 : normalizeDistrictName (some "West District") = "West District" := by decide

set_option maxRecDepth 40000 in
theorem distValueFixed120 : normalizeDistrictName (some "Hazaribagh") = "Hazaribagh" := by decide

set_option maxRecDepth 40000 in
theorem distValueFixed121 : normalizeDistrictName (some "Janjgir Champa") = "Janjgir Champa" := by decide

set_option maxRecDepth 40000 in
theorem distValueFixed122 : normalizeDistrictName (some "Ladakh") = "Ladakh" := by decide

set_option maxRecDepth 40000 in
theorem distValueFixed123 : normalizeDistrictName (some "Leh (Ladakh)") = "Leh (Ladakh)" := by decide

set_option maxRecDepth 40000 in
theorem distValueFixed124 : normalizeDistrictName (some "Mahbubnagar") = "Mahbubnagar" := by decide

set_option maxRecDepth 40000 in
theorem distValueFixed125 : normalizeDistrictName (some "Morigaon") = "Morigaon" := by decide

set_option maxRecDepth 40000 in
theorem distValueFixed126 : normalizeDistrictName (some "Narsinghpur") = "Narsinghpur" := by decide

set_option maxRecDepth 40000 in
theorem distValueFixed127 : normalizeDistrictName (some "Ranga Reddy") = "Ranga Reddy" := by decide

set_option maxRecDepth 40000 in
theorem distValueFixed128 : normalizeDistrictName (some "Sipahijala") = "Sipahijala" := by decide

set_option maxRecDepth 40000 in
theorem distValueFixed129 : normalizeDistrictName (some "Saraikela-Kharsawan") = "Saraikela-Kharsawan" := by decide

set_option maxRecDepth 40000 in
theorem distValueFixed130 : normalizeDistrictName (some "Paschim Medinipur") = "Paschim Medinipur" := by decide

set_option maxRecDepth 40000 in
theorem distValueFixed131 : normalizeDistrictName (some "Chandauli") = "Chandauli" := by decide

set_option maxRecDepth 40000 in
theorem distValueFixed132 : normalizeDistrictName (some "Chitrakoot") = "Chitrakoot" := by decide

set_option maxRecDepth 40000 in
theorem distValueFixed133 : normalizeDistrictName (some "Haveri") = "Haveri" := by decide

set_option maxRecDepth 40000 in
theorem distValueFixed134 : normalizeDistrictName (some "Hingoli") = "Hingoli" := by decide

set_option maxRecDepth 40000 in
theorem distValueFixed135 : normalizeDistrictName (some "Kushinagar") = "Kushinagar" := by decide

set_option maxRecDepth 40000 in
theorem distValueFixed136 : normalizeDistrictName (some "Udham Singh Nagar") = "Udham Singh Nagar" := by decide

set_option maxRecDepth 40000 in
theorem distValueFixed137 : normalizeDistrictName (some "Washim") = "Washim" := by decide

set_option maxRecDepth 4000 in
/-- Every value of the district alias table is a fixed point of the
normalizer, assembled from the per-value checks above. -/
theorem districtMappings_fixed :
    ∀ p ∈ districtMappings, normalizeDistrictName (some p.2) = p.2 := by
  unfold districtMappings
  exact List.forall_mem_cons.mpr ⟨distValueFixed0,
    List.forall_mem_cons.mpr ⟨distValueFixed0,
    List.forall_mem_cons.mpr ⟨distValueFixed0,
    List.forall_mem_cons.mpr ⟨distValueFixed1,
    List.forall_mem_cons.mpr ⟨distValueFixed2,
    List.forall_mem_cons.mpr ⟨distValueFixed3,
    List.forall_mem_cons.mpr ⟨distValueFixed4,
    List.forall_mem_cons.mpr ⟨distValueFixed4,
    List.forall_mem_cons.mpr ⟨distValueFixed5,
    List.forall_mem_cons.mpr ⟨distValueFixed6,
    List.forall_mem_cons.mpr ⟨distValueFixed7,
    List.forall_mem_cons.mpr ⟨distValueFixed8,
    List.forall_mem_cons.mpr ⟨distValueFixed9,
    List.forall_mem_cons.mpr ⟨distValueFixed10,
    List.forall_mem_cons.mpr ⟨distValueFixed11,
    List.forall_mem_cons.mpr ⟨distValueFixed12,
    List.forall_mem_cons.mpr ⟨distValueFixed13,
    List.forall_mem_cons.mpr ⟨distValueFixed14,
    List.forall_mem_cons.mpr ⟨distValueFixed15,
    List.forall_mem_cons.mpr ⟨distValueFixed16,
    List.forall_mem_cons.mpr ⟨distValueFixed17,
    List.forall_mem_cons.mpr ⟨distValueFixed18,
    List.forall_mem_cons.mpr ⟨distValueFixed19,
    List.forall_mem_cons.mpr ⟨distValueFixed20,
    List.forall_mem_cons.mpr ⟨distValueFixed21,
    List.forall_mem_cons.mpr ⟨distValueFixed22,
    List.forall_mem_cons.mpr ⟨distValueFixed23,
    List.forall_mem_cons.mpr ⟨distValueFixed24,
    List.forall_mem_cons.mpr ⟨distValueFixed25,
    List.forall_mem_cons.mpr ⟨distValueFixed26,
    List.forall_mem_cons.mpr ⟨distValueFixed27,
    List.forall_mem_cons.mpr ⟨distValueFixed28,
    List.forall_mem_cons.mpr ⟨distValueFixed29,
    List.forall_mem_cons.mpr ⟨distValueFixed30,
    List.forall_mem_cons.mpr ⟨distValueFixed31,
    List.forall_mem_cons.mpr ⟨distValueFixed32,
    List.forall_mem_cons.mpr ⟨distValueFixed33,
    List.forall_mem_cons.mpr ⟨distValueFixed33,
    List.forall_mem_cons.mpr ⟨distValueFixed34,
    List.forall_mem_cons.mpr ⟨distValueFixed35,
    List.forall_mem_cons.mpr ⟨distValueFixed36,
    List.forall_mem_cons.mpr ⟨distValueFixed30,
    List.forall_mem_cons.mpr ⟨distValueFixed37,
    List.forall_mem_cons.mpr ⟨distValueFixed38,
    List.forall_mem_cons.mpr ⟨distValueFixed38,
    List.forall_mem_cons.mpr ⟨distValueFixed39,
    List.forall_mem_cons.mpr ⟨distValueFixed40,
    List.forall_mem_cons.mpr ⟨distValueFixed41,
    List.forall_mem_cons.mpr ⟨distValueFixed41,
    List.forall_mem_cons.mpr ⟨distValueFixed42,
    List.forall_mem_cons.mpr ⟨distValueFixed43,
    List.forall_mem_cons.mpr ⟨distValueFixed43,
    List.forall_mem_cons.mpr ⟨distValueFixed44,
    List.forall_mem_cons.mpr ⟨distValueFixed44,
    List.forall_mem_cons.mpr ⟨distValueFixed45,
    List.forall_mem_cons.mpr ⟨distValueFixed46,
    List.forall_mem_cons.mpr ⟨distValueFixed46,
    List.forall_mem_cons.mpr ⟨distValueFixed47,
    List.forall_mem_cons.mpr ⟨distValueFixed47,
    List.forall_mem_cons.mpr ⟨distValueFixed48,
    List.forall_mem_cons.mpr ⟨distValueFixed49,
    List.forall_mem_cons.mpr ⟨distValueFixed50,
    List.forall_mem_cons.mpr ⟨distValueFixed51,
    List.forall_mem_cons.mpr ⟨distValueFixed52,
    List.forall_mem_cons.mpr ⟨distValueFixed53,
    List.forall_mem_cons.mpr ⟨distValueFixed54,
    List.forall_mem_cons.mpr ⟨distValueFixed53,
    List.forall_mem_cons.mpr ⟨distValueFixed54,
    List.forall_mem_cons.mpr ⟨distValueFixed55,
    List.forall_mem_cons.mpr ⟨distValueFixed55,
    List.forall_mem_cons.mpr ⟨distValueFixed56,
    List.forall_mem_cons.mpr ⟨distValueFixed56,
    List.forall_mem_cons.mpr ⟨distValueFixed57,
    List.forall_mem_cons.mpr ⟨distValueFixed58,
    List.forall_mem_cons.mpr ⟨distValueFixed59,
    List.forall_mem_cons.mpr ⟨distValueFixed60,
    List.forall_mem_cons.mpr ⟨distValueFixed61,
    List.forall_mem_cons.mpr ⟨distValueFixed62,
    List.forall_mem_cons.mpr ⟨distValueFixed63,
    List.forall_mem_cons.mpr ⟨distValueFixed63,
    List.forall_mem_cons.mpr ⟨distValueFixed64,
    List.forall_mem_cons.mpr ⟨distValueFixed64,
    List.forall_mem_cons.mpr ⟨distValueFixed65,
    List.forall_mem_cons.mpr ⟨distValueFixed66,
    List.forall_mem_cons.mpr ⟨distValueFixed67,
    List.forall_mem_cons.mpr ⟨distValueFixed68,
    List.forall_mem_cons.mpr ⟨distValueFixed69,
    List.forall_mem_cons.mpr ⟨distValueFixed70,
    List.forall_mem_cons.mpr ⟨distValueFixed71,
    List.forall_mem_cons.mpr ⟨distValueFixed72,
    List.forall_mem_cons.mpr ⟨distValueFixed68,
    List.forall_mem_cons.mpr ⟨distValueFixed70,
    List.forall_mem_cons.mpr ⟨distValueFixed73,
    List.forall_mem_cons.mpr ⟨distValueFixed74,
    List.forall_mem_cons.mpr ⟨distValueFixed75,
    List.forall_mem_cons.mpr ⟨distValueFixed76,
    List.forall_mem_cons.mpr ⟨distValueFixed77,
    List.forall_mem_cons.mpr ⟨distValueFixed78,
    List.forall_mem_cons.mpr ⟨distValueFixed79,
    List.forall_mem_cons.mpr ⟨distValueFixed61,
    List.forall_mem_cons.mpr ⟨distValueFixed72,
    List.forall_mem_cons.mpr ⟨distValueFixed80,
    List.forall_mem_cons.mpr ⟨distValueFixed71,
    List.forall_mem_cons.mpr ⟨distValueFixed81,
    List.forall_mem_cons.mpr ⟨distValueFixed82,
    List.forall_mem_cons.mpr ⟨distValueFixed83,
    List.forall_mem_cons.mpr ⟨distValueFixed84,
    List.forall_mem_cons.mpr ⟨distValueFixed85,
    List.forall_mem_cons.mpr ⟨distValueFixed85,
    List.forall_mem_cons.mpr ⟨distValueFixed86,
    List.forall_mem_cons.mpr ⟨distValueFixed86,
    List.forall_mem_cons.mpr ⟨distValueFixed87,
    List.forall_mem_cons.mpr ⟨distValueFixed88,
    List.forall_mem_cons.mpr ⟨distValueFixed89,
    List.forall_mem_cons.mpr ⟨distValueFixed90,
    List.forall_mem_cons.mpr ⟨distValueFixed90,
    List.forall_mem_cons.mpr ⟨distValueFixed91,
    List.forall_mem_cons.mpr ⟨distValueFixed91,
    List.forall_mem_cons.mpr ⟨distValueFixed92,
    List.forall_mem_cons.mpr ⟨distValueFixed93,
    List.forall_mem_cons.mpr ⟨distValueFixed94,
    List.forall_mem_cons.mpr ⟨distValueFixed95,
    List.forall_mem_cons.mpr ⟨distValueFixed96,
    List.forall_mem_cons.mpr ⟨distValueFixed96,
    List.forall_mem_cons.mpr ⟨distValueFixed97,
    List.forall_mem_cons.mpr ⟨distValueFixed98,
    List.forall_mem_cons.mpr ⟨distValueFixed99,
    List.forall_mem_cons.mpr ⟨distValueFixed100,
    List.forall_mem_cons.mpr ⟨distValueFixed101,
    List.forall_mem_cons.mpr ⟨distValueFixed102,
    List.forall_mem_cons.mpr ⟨distValueFixed98,
    List.forall_mem_cons.mpr ⟨distValueFixed103,
    List.forall_mem_cons.mpr ⟨distValueFixed104,
    List.forall_mem_cons.mpr ⟨distValueFixed105,
    List.forall_mem_cons.mpr ⟨distValueFixed106,
    List.forall_mem_cons.mpr ⟨distValueFixed107,
    List.forall_mem_cons.mpr ⟨distValueFixed108,
    List.forall_mem_cons.mpr ⟨distValueFixed108,
    List.forall_mem_cons.mpr ⟨distValueFixed108,
    List.forall_mem_cons.mpr ⟨distValueFixed108,
    List.forall_mem_cons.mpr ⟨distValueFixed109,
    List.forall_mem_cons.mpr ⟨distValueFixed110,
    List.forall_mem_cons.mpr ⟨distValueFixed111,
    List.forall_mem_cons.mpr ⟨distValueFixed111,
    List.forall_mem_cons.mpr ⟨distValueFixed112,
    List.forall_mem_cons.mpr ⟨distValueFixed113,
    List.forall_mem_cons.mpr ⟨distValueFixed113,
    List.forall_mem_cons.mpr ⟨distValueFixed114,
    List.forall_mem_cons.mpr ⟨distValueFixed115,
    List.forall_mem_cons.mpr ⟨distValueFixed48,
    List.forall_mem_cons.mpr ⟨distValueFixed116,
    List.forall_mem_cons.mpr ⟨distValueFixed117,
    List.forall_mem_cons.mpr ⟨distValueFixed118,
    List.forall_mem_cons.mpr ⟨distValueFixed119,
    List.forall_mem_cons.mpr ⟨distValueFixed120,
    List.forall_mem_cons.mpr ⟨distValueFixed121,
    List.forall_mem_cons.mpr ⟨distValueFixed122,
    List.forall_mem_cons.mpr ⟨distValueFixed123,
    List.forall_mem_cons.mpr ⟨distValueFixed124,
    List.forall_mem_cons.mpr ⟨distValueFixed125,
    List.forall_mem_cons.mpr ⟨distValueFixed126,
    List.forall_mem_cons.mpr ⟨distValueFixed127,
    List.forall_mem_cons.mpr ⟨distValueFixed127,
    List.forall_mem_cons.mpr ⟨distValueFixed128,
    List.forall_mem_cons.mpr ⟨distValueFixed129,
    List.forall_mem_cons.mpr ⟨distValueFixed130,
    List.forall_mem_cons.mpr ⟨distValueFixed130,
    List.forall_mem_cons.mpr ⟨distValueFixed131,
    List.forall_mem_cons.mpr ⟨distValueFixed132,
    List.forall_mem_cons.mpr ⟨distValueFixed133,
    List.forall_mem_cons.mpr ⟨distValueFixed134,
    List.forall_mem_cons.mpr ⟨distValueFixed98,
    List.forall_mem_cons.mpr ⟨distValueFixed135,
    List.forall_mem_cons.mpr ⟨distValueFixed22,
    List.forall_mem_cons.mpr ⟨distValueFixed136,
    List.forall_mem_cons.mpr ⟨distValueFixed137,
    List.forall_mem_cons.mpr ⟨distValueFixed15,
    List.forall_mem_cons.mpr ⟨distValueFixed53,
    List.forall_mem_cons.mpr ⟨distValueFixed54,
    List.forall_mem_nil _⟩⟩⟩⟩⟩⟩⟩⟩⟩⟩⟩⟩⟩⟩⟩⟩⟩⟩⟩⟩⟩⟩⟩⟩⟩⟩⟩⟩⟩⟩⟩⟩⟩⟩⟩⟩⟩⟩⟩⟩⟩⟩⟩⟩⟩⟩⟩⟩⟩⟩⟩⟩⟩⟩⟩⟩⟩⟩⟩⟩⟩⟩⟩⟩⟩⟩⟩⟩⟩⟩⟩⟩⟩⟩⟩⟩⟩⟩⟩⟩⟩⟩⟩⟩⟩⟩⟩⟩⟩⟩⟩⟩⟩⟩⟩⟩⟩⟩⟩⟩⟩⟩⟩⟩⟩⟩⟩⟩⟩⟩⟩⟩⟩⟩⟩⟩⟩⟩⟩⟩⟩⟩⟩⟩⟩⟩⟩⟩⟩⟩⟩⟩⟩⟩⟩⟩⟩⟩⟩⟩⟩⟩⟩⟩⟩⟩⟩⟩⟩⟩⟩⟩⟩⟩⟩⟩⟩⟩⟩⟩⟩⟩⟩⟩⟩⟩⟩⟩⟩⟩⟩⟩⟩⟩⟩⟩⟩⟩⟩

theorem normalizeStateName_idem (x : Option String)
    (h1 : normalizeStateName x ≠ "nan") (h2 : normalizeStateName x ≠ "None") :
    normalizeStateName (some (normalizeStateName x)) = normalizeStateName x := by
  cases x with
  | none =>
    show normalizeStateName (some "") = ""
    decide
  | some s =>
    by_cases hnn : s = "nan" ∨ s = "None"
    · have hout : normalizeStateName (some s) = "" := by simp [normalizeStateName, hnn]
      rw [hout]
      decide
    · by_cases hempty : pyStrip s = ""
      · have hout : normalizeStateName (some s) = "" := by
          simp [normalizeStateName, hnn, hempty]
        rw [hout]
        decide
      · cases hlook : lookupName (pyStrip s) stateMappings with
        | some v =>
          have hout : normalizeStateName (some s) = v := by
            simp [normalizeStateName, hnn, hempty, hlook]
          rw [hout]
          exact stateMappings_fixed (pyStrip s, v) (lookupName_mem hlook)
        | none =>
          have hout : normalizeStateName (some s) = pyStrip s := by
            simp [normalizeStateName, hnn, hempty, hlook]
          rw [hout] at h1 h2 ⊢
          have hnn2 : ¬ (pyStrip s = "nan" ∨ pyStrip s = "None") := by
            rintro (h | h) <;> [exact h1 h; exact h2 h]
          have hstrip : pyStrip (pyStrip s) = pyStrip s := pyStrip_pyStrip s
          simp [normalizeStateName, hnn2, hstrip, hempty, hlook]

theorem normalizeDistrictName_idem (x : Option String)
    (h1 : normalizeDistrictName x ≠ "nan") (h2 : normalizeDistrictName x ≠ "None") :
    normalizeDistrictName (some (normalizeDistrictName x)) = normalizeDistrictName x := by
  cases x with
  | none =>
    show normalizeDistrictName (some "") = ""
    decide
  | some s =>
    by_cases hnn : s = "nan" ∨ s = "None"
    · have hout : normalizeDistrictName (some s) = "" := by
        simp [normalizeDistrictName, hnn]
      rw [hout]
      decide
    · by_cases hempty : s = "" ∨ pyStrip s = ""
      · have hout : normalizeDistrictName (some s) = "" := by
          simp only [normalizeDistrictName]
          rw [if_neg hnn, if_pos hempty]
        rw [hout]
        decide
      · cases hl1 : lookupName (lowerStr (wsJoin (pyStrip s))) districtMappings with
        | some v =>
          have hout : normalizeDistrictName (some s) = v := by
            simp only [normalizeDistrictName]
            rw [if_neg hnn, if_neg hempty]
            simp only [hl1]
          rw [hout]
          exact districtMappings_fixed _ (lookupName_mem hl1)
        | none =>
          cases hl2 : lookupName (cleanedName (lowerStr (wsJoin (pyStrip s))))
              districtMappings with
          | some v =>
            have hout : normalizeDistrictName (some s) = v := by
              simp only [normalizeDistrictName]
              rw [if_neg hnn, if_neg hempty]
              simp only [hl1, hl2]
            rw [hout]
            exact districtMappings_fixed _ (lookupName_mem hl2)
          | none =>
            have hout : normalizeDistrictName (some s) = wsJoin (pyStrip s) := by
              simp only [normalizeDistrictName]
              rw [if_neg hnn, if_neg hempty]
              simp only [hl1, hl2]
            have hs : stripL s.data ≠ [] := by
              intro hcon
              exact hempty (Or.inr (str_eq_empty_iff.mpr hcon))
            have hwords : wordsL s.data ≠ [] := by
              intro hcon
              exact hs ((stripL_nil_iff s.data).mpr (wordsL_nil_allspace hcon))
            have hwstrip : wordsL (stripL s.data) = wordsL s.data := wordsL_stripL s.data
            have hwf : ∀ w ∈ wordsL (stripL s.data), w ≠ [] ∧ ∀ c ∈ w, nonSpace c :=
              wordsL_wf (stripL s.data)
            have hNdata : (wsJoin (pyStrip s)).data = sepJoin (wordsL (stripL s.data)) := rfl
            have hNne : (wsJoin (pyStrip s)).data ≠ [] := by
              rw [hNdata]
              exact sepJoin_ne_nil (fun w hw => (hwf w hw).1) (by rw [hwstrip]; exact hwords)
            have hwN : wordsL (wsJoin (pyStrip s)).data = wordsL (stripL s.data) := by
              rw [hNdata]
              exact wordsL_sepJoin hwf
            have hstripN : stripL (wsJoin (pyStrip s)).data ≠ [] := by
              intro hcon
              have hall := (stripL_nil_iff _).mp hcon
              have : wordsL (wsJoin (pyStrip s)).data = [] := allspace_wordsL_nil hall
              rw [hwN, hwstrip] at this
              exact hwords this
            have hjoin : wsJoin (pyStrip (wsJoin (pyStrip s))) = wsJoin (pyStrip s) := by
              show String.mk (sepJoin (wordsL (stripL (wsJoin (pyStrip s)).data))) = _
              rw [wordsL_stripL, hwN, ← hNdata, mk_data]
            rw [hout] at h1 h2 ⊢
            have hnn2 : ¬ (wsJoin (pyStrip s) = "nan" ∨ wsJoin (pyStrip s) = "None") := by
              rintro (h | h) <;> [exact h1 h; exact h2 h]
            have hemp2 : ¬ (wsJoin (pyStrip s) = "" ∨ pyStrip (wsJoin (pyStrip s)) = "") := by
              rintro (h | h)
              · exact hNne (str_eq_empty_iff.mp h)
              · exact hstripN (str_eq_empty_iff.mp h)
            have hlow : lowerStr (wsJoin (pyStrip (wsJoin (pyStrip s)))) =
                lowerStr (wsJoin (pyStrip s)) := by rw [hjoin]
            simp only [normalizeDistrictName]
            rw [if_neg hnn2, if_neg hemp2]
            simp only [hlow, hl1, hl2, hjoin]

/-! ## Claim C6 and C7 theorems -/

set_option maxRecDepth 40000 in
/-- C6 counterexample: the claim that normalize(normalize x) = normalize x for
every input x is false on the code. The input " nan " survives the null-like
checks (it is not equal to the literal "nan"), cleans to the output "nan",
but renormalizing "nan" hits the null-like check and yields "". -/
theorem normalize_idempotent_cex :
    normalizeDistrictName (some " nan ") = "nan" ∧
    normalizeDistrictName (some (normalizeDistrictName (some " nan "))) = "" ∧
    ("nan" : String) ≠ "" := by
  refine ⟨by decide, ?_, by decide⟩
  have h : normalizeDistrictName (some " nan ") = "nan" := by decide
  rw [h]
  decide

set_option maxRecDepth 40000 in
/-- C6 (amended): normalization is idempotent on every input whose normalized
output is not one of the literal strings "nan" and "None". Already-canonical
names (alias-table values and cleaned unmapped names) renormalize unchanged;
the only exceptions are inputs such as " nan " whose cleaned output then
trips the null-like guard of a second pass. -/
theorem normalize_idempotent_amended (x : Option String) :
    (normalizeStateName x ≠ "nan" → normalizeStateName x ≠ "None" →
      normalizeStateName (some (normalizeStateName x)) = normalizeStateName x)
    ∧
    (normalizeDistrictName x ≠ "nan" → normalizeDistrictName x ≠ "None" →
      normalizeDistrictName (some (normalizeDistrictName x)) =
        normalizeDistrictName x) :=
  ⟨fun h1 h2 => normalizeStateName_idem x h1 h2,
   fun h1 h2 => normalizeDistrictName_idem x h1 h2⟩

set_option maxRecDepth 40000 in
/-- C6 witness: the amended idempotence applied at the concrete inputs
" West Bengli " (state) and "Bangalore" (district). -/
theorem normalize_idempotent_witness :
    normalizeStateName (some (normalizeStateName (some " West Bengli "))) =
      normalizeStateName (some " West Bengli ") ∧
    normalizeDistrictName (some (normalizeDistrictName (some "Bangalore"))) =
      normalizeDistrictName (some "Bangalore") :=
  ⟨(normalize_idempotent_amended (some " West Bengli ")).1 (by decide) (by decide),
   (normalize_idempotent_amended (some "Bangalore")).2 (by decide) (by decide)⟩

/-- C7: the normalizers are total functions of the embedded cell value and
return the empty string on every null-like input: a missing cell (None or
NaN), the literal strings "nan" and "None", the empty string, and every
whitespace-only string. -/
theorem normalize_nulllike_empty (x : Option String)
    (h : x = none ∨ x = some "nan" ∨ x = some "None" ∨
      ∃ s, x = some s ∧ pyStrip s = "") :
    normalizeStateName x = "" ∧ normalizeDistrictName x = "" := by
  rcases h with rfl | rfl | rfl | ⟨s, rfl, hs⟩
  · exact ⟨rfl, rfl⟩
  · exact ⟨by decide, by decide⟩
  · exact ⟨by decide, by decide⟩
  · constructor
    · by_cases hnn : s = "nan" ∨ s = "None"
      · simp [normalizeStateName, hnn]
      · simp [normalizeStateName, hnn, hs]
    · by_cases hnn : s = "nan" ∨ s = "None"
      · simp [normalizeDistrictName, hnn]
      · simp only [normalizeDistrictName]
        rw [if_neg hnn, if_pos (Or.inr hs)]

/-- C7 witness: both normalizers return the empty string on the concrete
whitespace-only input. -/
theorem normalize_nulllike_empty_witness :
    normalizeStateName (some "   ") = "" ∧ normalizeDistrictName (some "   ") = "" :=
  normalize_nulllike_empty (some "   ")
    (Or.inr (Or.inr (Or.inr ⟨"   ", rfl, by decide⟩)))

theorem withPrev_mem {l : List Row} :
    ∀ {p0 : Option Row} {rp : Row × Option Row}, rp ∈ withPrev p0 l →
      rp.1 ∈ l ∧ (∀ q, rp.2 = some q → q ∈ l ∨ p0 = some q) := by
  induction l with
  | nil =>
    intro p0 rp h
    simp [withPrev] at h
  | cons r rs ih =>
    intro p0 rp h
    simp only [withPrev, List.mem_cons] at h
    rcases h with rfl | h
    · exact ⟨List.mem_cons_self r rs, fun q hq => Or.inr hq⟩
    · obtain ⟨h1, h2⟩ := ih h
      refine ⟨List.mem_cons_of_mem r h1, fun q hq => ?_⟩
      rcases h2 q hq with hq2 | hq2
      · exact Or.inl (List.mem_cons_of_mem r hq2)
      · injection hq2 with hq3
        exact Or.inl (List.mem_cons.mpr (Or.inl hq3.symm))

theorem seriesOf_sub {rows : List Row} {d : String} {r : Row}
    (h : r ∈ seriesOf rows d) : r ∈ rows := by
  have h1 : r ∈ List.insertionSort rowLE rows := (List.mem_filter.mp h).1
  exact (List.perm_insertionSort rowLE rows).mem_iff.mp h1

/-! ## Claims C1 and C4 -/

/-- C1 counterexample: the claim that every derived field of add_all_metrics
is nonnegative is false for enrolment_growth_rate. District X loses half
its holders between the two months, so its second growth value is -1/2. -/
theorem growth_rate_negative_cex :
    growthRateSeries [gRow1, gRow2] "X" = [0, -(1/2)] ∧
    ¬ (0 ≤ (-(1/2) : ℚ)) := by
  have hle : rowLE gRow1 gRow2 := by decide
  have hseries : seriesOf [gRow1, gRow2] "X" = [gRow1, gRow2] := by
    have hd1 : gRow1.district = "X" := rfl
    have hd2 : gRow2.district = "X" := rfl
    simp [seriesOf, List.insertionSort, List.orderedInsert, hle, hd1, hd2]
  constructor
  · unfold growthRateSeries growthRateRaw
    rw [hseries]
    norm_num [withPrev, gRow1, gRow2]
  · norm_num

/-- C1 (amended): on rows with nonnegative input cells, every division of
add_all_metrics is guarded, a zero denominator yields 0, and update_ratio,
demo_update_ratio, bio_update_ratio and biometric_compliance are finite
and nonnegative; enrolment_growth_rate is finite and at least -1 but can
be negative, so it is the one derived field the original claim overstates. -/
theorem metrics_nonneg_amended (rows : List Row) (d : String)
    (h : ∀ r ∈ rows, RowNonneg r) :
    (∀ r ∈ rows,
      0 ≤ updateRatio r ∧ 0 ≤ demoUpdateRatio r ∧ 0 ≤ bioUpdateRatio r ∧
      (totalHoldersCalc r = 0 →
        updateRatio r = 0 ∧ demoUpdateRatio r = 0 ∧ bioUpdateRatio r = 0)) ∧
    (∀ v ∈ complianceSeries rows d, 0 ≤ v) ∧
    (∀ v ∈ growthRateSeries rows d, -1 ≤ v) := by
  refine ⟨?_, ?_, ?_⟩
  · intro r hr
    obtain ⟨h05, h517, h18, hd517, hd17, hb517, hb17, hth, htd, htb⟩ := h r hr
    have hthc : 0 ≤ totalHoldersCalc r := by
      unfold totalHoldersCalc
      have := add_nonneg (add_nonneg h05 h517) h18
      exact this
    have htuc : 0 ≤ totalUpdatesCalc r := by
      unfold totalUpdatesCalc
      exact add_nonneg (add_nonneg hd517 hd17) (add_nonneg hb517 hb17)
    refine ⟨?_, ?_, ?_, ?_⟩
    · unfold updateRatio
      split
      · next hpos => exact div_nonneg htuc (le_of_lt hpos)
      · exact le_refl 0
    · unfold demoUpdateRatio
      split
      · next hpos => exact div_nonneg htd (le_of_lt hpos)
      · exact le_refl 0
    · unfold bioUpdateRatio
      split
      · next hpos => exact div_nonneg htb (le_of_lt hpos)
      · exact le_refl 0
    · intro hzero
      have hneg : ¬ 0 < totalHoldersCalc r := by rw [hzero]; exact lt_irrefl 0
      exact ⟨by unfold updateRatio; rw [if_neg hneg],
             by unfold demoUpdateRatio; rw [if_neg hneg],
             by unfold bioUpdateRatio; rw [if_neg hneg]⟩
  · intro v hv
    simp only [complianceSeries, List.mem_map] at hv
    obtain ⟨rp, hrp, rfl⟩ := hv
    obtain ⟨r, p⟩ := rp
    have hrmem : r ∈ rows := seriesOf_sub (withPrev_mem hrp).1
    obtain ⟨_, _, _, _, _, _, hb17, _, _, _⟩ := h r hrmem
    cases p with
    | none => exact le_refl 0
    | some q =>
      cases hq : q.age_5_17 with
      | none => simp [hq]
      | some lag =>
        simp only [hq]
        split
        · next hlag => exact div_nonneg hb17 (le_of_lt hlag)
        · exact le_refl 0
  · intro v hv
    simp only [growthRateSeries, growthRateRaw, List.map_map, List.mem_map] at hv
    obtain ⟨rp, hrp, rfl⟩ := hv
    obtain ⟨r, p⟩ := rp
    have hrmem : r ∈ rows := seriesOf_sub (withPrev_mem hrp).1
    obtain ⟨_, _, _, _, _, _, _, hth, _, _⟩ := h r hrmem
    cases p with
    | none => norm_num
    | some q =>
      cases hq : q.total_holders with
      | none => simp [hq]
      | some prev =>
        simp only [hq, Function.comp]
        split
        · next hprev =>
          cases hcur : r.total_holders with
          | none => simp
          | some cur =>
            have hc : 0 ≤ cur := optNonneg_some hth hcur
            simp only [Option.getD_some]
            rw [le_div_iff₀ hprev]
            linarith
        · norm_num

/-- C1 witness: the amended statement applied to the concrete two-month
table of district X, whose cells are all nonnegative. -/
theorem metrics_nonneg_witness :
    (∀ r ∈ [gRow1, gRow2], RowNonneg r) ∧
    (∀ v ∈ complianceSeries [gRow1, gRow2] "X", 0 ≤ v) :=
  ⟨by decide, (metrics_nonneg_amended [gRow1, gRow2] "X" (by decide)).2.1⟩

/-- C4: a district whose name appears in exactly one row of the table has a
one-element metric series, and both biometric_compliance and
enrolment_growth_rate are 0 there: the shift(1) lag is taken inside the
groupby(district) group, so the single row has no predecessor and the
lag is NaN, which the zero-guards turn into 0. -/
theorem single_period_lag_zero (rows : List Row) (d : String)
    (h : (rows.filter (fun r => r.district = d)).length = 1) :
    complianceSeries rows d = [0] ∧ growthRateSeries rows d = [0] := by
  have hlen : (seriesOf rows d).length = 1 := by
    unfold seriesOf
    rw [((List.perm_insertionSort rowLE rows).filter _).length_eq]
    exact h
  obtain ⟨r, hr⟩ := List.length_eq_one.mp hlen
  constructor
  · simp [complianceSeries, hr, withPrev]
  · simp [growthRateSeries, growthRateRaw, hr, withPrev]

/-- C4 witness: in the concrete table holding one row for district A and one
for district B, district A has exactly one period and both lagged metrics
are 0 for it. -/
theorem single_period_lag_zero_witness :
    (([wRow1, wRow2].filter (fun r => r.district = "A")).length = 1) ∧
    complianceSeries [wRow1, wRow2] "A" = [0] ∧
    growthRateSeries [wRow1, wRow2] "A" = [0] :=
  ⟨by decide,
   (single_period_lag_zero [wRow1, wRow2] "A" (by decide)).1,
   (single_period_lag_zero [wRow1, wRow2] "A" (by decide)).2⟩

theorem qclip_id_of_bounds {y : ℚ} (h0 : 0 ≤ y) (h50 : y ≤ 50) :
    qclip y 0 50 = y := by
  unfold qclip
  rw [max_eq_left h0, min_eq_left h50]

theorem qclip_bounds (x : ℚ) : 0 ≤ qclip x 0 50 ∧ qclip x 0 50 ≤ 50 :=
  ⟨le_min (le_max_right x 0) (by norm_num), min_le_right _ _⟩

/-! ## Claim C2 -/

/-- C2 counterexample: a district whose monthly update_ratio is 1000 does
not end at 50 in the District Summary. Because 1000 exceeds the
replacement threshold 20, the mean is replaced by the aggregate ratio
capped at 10 before the 0..50 clip ever sees it, so the final value is
10, not 50. -/
theorem extreme_ratio_not_fifty_cex :
    finalUpdateRatio gExtreme = 10 ∧ finalUpdateRatio gExtreme ≠ 50 := by
  have h : finalUpdateRatio gExtreme = 10 := by
    norm_num [finalUpdateRatio, updateRatioCalc, calculatedRatio, meanQ,
      qclip, gExtreme, min_def, max_def]
  refine ⟨h, ?_⟩
  rw [h]
  norm_num

/-- C2 (amended): in the District Summary a mean monthly update_ratio above
20 is replaced by the aggregate updates over aggregate holders ratio
capped at 10, every final ratio is clipped to the interval 0..50, and
the synthetic district with update_ratio 1000 therefore ends at 10 (it
is the greater-than-20 replacement, not the 50 clip, that caps it). -/
theorem district_summary_capping :
    (∀ g : DistrictGroup, 20 < meanQ g.ratios →
        finalUpdateRatio g = qclip (calculatedRatio g) 0 10) ∧
    (∀ g : DistrictGroup, ¬ 20 < meanQ g.ratios →
        finalUpdateRatio g = qclip (meanQ g.ratios) 0 50) ∧
    (∀ g : DistrictGroup,
      0 ≤ finalUpdateRatio g ∧ finalUpdateRatio g ≤ 50 ∧
      0 ≤ finalDemoRatio g ∧ finalDemoRatio g ≤ 50 ∧
      0 ≤ finalBioRatio g ∧ finalBioRatio g ≤ 50) ∧
    finalUpdateRatio gExtreme = 10 := by
  refine ⟨?_, ?_, ?_, ?_⟩
  · intro g h
    unfold finalUpdateRatio updateRatioCalc
    rw [if_pos h]
    have h0 : 0 ≤ qclip (calculatedRatio g) 0 10 :=
      le_min (le_max_right _ 0) (by norm_num)
    have h50 : qclip (calculatedRatio g) 0 10 ≤ 50 :=
      le_trans (min_le_right _ 10) (by norm_num)
    exact qclip_id_of_bounds h0 h50
  · intro g h
    unfold finalUpdateRatio
    rw [if_neg h]
  · intro g
    obtain ⟨hu0, hu50⟩ := qclip_bounds
      (if 20 < meanQ g.ratios then updateRatioCalc g else meanQ g.ratios)
    obtain ⟨hd0, hd50⟩ := qclip_bounds (meanQ g.demoRatios)
    obtain ⟨hb0, hb50⟩ := qclip_bounds (meanQ g.bioRatios)
    exact ⟨hu0, hu50, hd0, hd50, hb0, hb50⟩
  · norm_num [finalUpdateRatio, updateRatioCalc, calculatedRatio, meanQ,
      qclip, gExtreme, min_def, max_def]

/-- C2 witness: the replacement branch applied at the synthetic extreme
district, whose mean monthly ratio 1000 exceeds 20. -/
theorem district_summary_capping_witness :
    20 < meanQ gExtreme.ratios ∧
    finalUpdateRatio gExtreme = qclip (calculatedRatio gExtreme) 0 10 :=
  ⟨by norm_num [meanQ, gExtreme],
   district_summary_capping.1 gExtreme (by norm_num [meanQ, gExtreme])⟩

/-! ## Claims C3 and C10 -/

/-- C3 counterexample: a district with update_ratio equal to 12 times the
state mean, total_holders above 1000 and zero updates need not be
critical via rule 1: when the state mean is 0 the ratio is 0, rule 1
(0 > 10 times 0) fails, and rule 2 fires first on compliance 0, giving
warning, not critical. -/
theorem anomaly_rule_order_cex :
    cexARow.update_ratio_mean = 12 * cexARow.state_update_ratio_mean ∧
    cexARow.total_holders > 1000 ∧ cexARow.total_updates = 0 ∧
    classifyAnomaly 3 cexARow = Flag.warning ∧
    classifyAnomaly 3 cexARow ≠ Flag.critical := by
  have h : classifyAnomaly 3 cexARow = Flag.warning := by
    norm_num [classifyAnomaly, cexARow]
  refine ⟨by norm_num [cexARow], by norm_num [cexARow], by norm_num [cexARow],
    h, ?_⟩
  rw [h]
  intro hcon
  exact Flag.noConfusion hcon

/-- C3 (amended): for every district whose state mean update_ratio is
positive and whose update_ratio_mean is 12 times that mean, rule 1 of
the fixed cascade fires first and the flag is critical via rule 1 (not
by falling through to rule 4), regardless of compliance, deviation or
the zero-activity condition. -/
theorem anomaly_rule_one_first (t : ℚ) (r : ARow)
    (hpos : 0 < r.state_update_ratio_mean)
    (h12 : r.update_ratio_mean = 12 * r.state_update_ratio_mean) :
    classifyAnomaly t r = Flag.critical ∧ firedRule t r = 1 := by
  have h1 : r.update_ratio_mean > 10 * r.state_update_ratio_mean := by
    rw [h12]
    nlinarith
  constructor
  · unfold classifyAnomaly
    rw [if_pos h1]
  · unfold firedRule
    rw [if_pos h1]

/-- C3 witness: rule 1 fires for the concrete district with ratio 12 and
state mean 1, even though rule 4 would also match. -/
theorem anomaly_rule_one_first_witness :
    classifyAnomaly 3 witARow = Flag.critical ∧ firedRule 3 witARow = 1 :=
  anomaly_rule_one_first 3 witARow (by norm_num [witARow])
    (by norm_num [witARow])

/-- C10: classify_anomaly is total with values in the three flags, so the
summary counts partition the table: normal + warning + critical equals
total_districts for every threshold and every input frame. -/
theorem anomaly_flags_partition (t : ℚ) (rows : List ARow) :
    (anomalySummary t rows).2.1 + (anomalySummary t rows).2.2.1 +
      (anomalySummary t rows).2.2.2 = (anomalySummary t rows).1 := by
  unfold anomalySummary
  simp only
  induction rows with
  | nil => rfl
  | cons r rs ih =>
    simp only [List.filter_cons, List.length_cons]
    cases hc : classifyAnomaly t r <;> simp [hc] <;> omega

theorem le_foldl_max : ∀ (xs : List ℚ) (x : ℚ), x ≤ xs.foldl max x
  | [], x => le_refl x
  | a :: xs, x => le_trans (le_max_left x a) (le_foldl_max xs (max x a))

theorem mem_le_foldl_max : ∀ (xs : List ℚ) (x y : ℚ), y ∈ xs → y ≤ xs.foldl max x
  | [], _, y, h => absurd h (List.not_mem_nil y)
  | a :: xs, x, y, h => by
    rcases List.mem_cons.mp h with rfl | h2
    · exact le_trans (le_max_right x y) (le_foldl_max xs (max x y))
    · exact mem_le_foldl_max xs (max x a) y h2

theorem foldl_max_mem : ∀ (xs : List ℚ) (x : ℚ),
    xs.foldl max x = x ∨ xs.foldl max x ∈ xs
  | [], _ => Or.inl rfl
  | a :: xs, x => by
    rcases foldl_max_mem xs (max x a) with h | h
    · rcases max_choice x a with hm | hm
      · exact Or.inl (by rw [List.foldl_cons, h, hm])
      · refine Or.inr ?_
        rw [List.foldl_cons, h, hm]
        exact List.mem_cons_self a xs
    · exact Or.inr (List.mem_cons_of_mem a h)

theorem le_maxQ {xs : List ℚ} {y : ℚ} (h : y ∈ xs) : y ≤ maxQ xs := by
  cases xs with
  | nil => exact absurd h (List.not_mem_nil y)
  | cons a l =>
    rcases List.mem_cons.mp h with rfl | h2
    · exact le_foldl_max l y
    · exact mem_le_foldl_max l a y h2

theorem maxQ_mem {xs : List ℚ} (h : xs ≠ []) : maxQ xs ∈ xs := by
  cases xs with
  | nil => exact absurd rfl h
  | cons a l =>
    rcases foldl_max_mem l a with h2 | h2
    · rw [show maxQ (a :: l) = l.foldl max a from rfl, h2]
      exact List.mem_cons_self a l
    · rw [show maxQ (a :: l) = l.foldl max a from rfl]
      exact List.mem_cons_of_mem a h2

/-! ## Claim C5 -/

/-- C5: the aggregation before the geo join takes the maximum
anomaly_score (0.3 and 0.9 merge to 0.9), the most severe anomaly_flag
(critical beats warning beats normal), the maximum update_ratio, and
the mean of the other metric columns, for every group of source rows
normalizing to the same canonical name. -/
theorem merge_aggregation_policy :
    (∀ g : List GeoRow,
      ((mergeGroup g).anomaly_flag = Flag.critical ↔
        Flag.critical ∈ g.map GeoRow.anomaly_flag) ∧
      ((mergeGroup g).anomaly_flag = Flag.warning ↔
        (Flag.critical ∉ g.map GeoRow.anomaly_flag ∧
         Flag.warning ∈ g.map GeoRow.anomaly_flag)) ∧
      (∀ r ∈ g, r.anomaly_score ≤ (mergeGroup g).anomaly_score ∧
                r.update_ratio ≤ (mergeGroup g).update_ratio) ∧
      (g ≠ [] → ∃ r ∈ g, (mergeGroup g).anomaly_score = r.anomaly_score) ∧
      (mergeGroup g).biometric_compliance =
        (g.map GeoRow.biometric_compliance).sum /
          ((g.map GeoRow.biometric_compliance).length : ℚ)) ∧
    (mergeGroup [geoA, geoB]).anomaly_score = 9/10 ∧
    (mergeGroup [geoA, geoB]).anomaly_flag = Flag.critical := by
  refine ⟨fun g => ⟨?_, ?_, ?_, ?_, rfl⟩, ?_, ?_⟩
  · unfold mergeGroup aggFlag
    by_cases h1 : Flag.critical ∈ g.map GeoRow.anomaly_flag
    · simp [h1]
    · by_cases h2 : Flag.warning ∈ g.map GeoRow.anomaly_flag <;> simp [h1, h2]
  · unfold mergeGroup aggFlag
    by_cases h1 : Flag.critical ∈ g.map GeoRow.anomaly_flag
    · simp [h1]
    · by_cases h2 : Flag.warning ∈ g.map GeoRow.anomaly_flag <;> simp [h1, h2]
  · intro r hr
    exact ⟨le_maxQ (List.mem_map_of_mem GeoRow.anomaly_score hr),
           le_maxQ (List.mem_map_of_mem GeoRow.update_ratio hr)⟩
  · intro hne
    have hmap : g.map GeoRow.anomaly_score ≠ [] := by
      intro hcon
      exact hne (List.map_eq_nil_iff.mp hcon)
    obtain ⟨r, hr, hval⟩ := List.mem_map.mp (maxQ_mem hmap)
    exact ⟨r, hr, hval.symm⟩
  · have : maxQ [(3:ℚ)/10, 9/10] = 9/10 := by
      norm_num [maxQ, max_def]
    simpa [mergeGroup, geoA, geoB] using this
  · simp [mergeGroup, aggFlag, geoA, geoB]

/-- C5 witness: the nonemptiness hypothesis of the attained-maximum part
discharged at the concrete two-row Bengaluru group. -/
theorem merge_aggregation_policy_witness :
    ([geoA, geoB] ≠ ([] : List GeoRow)) ∧
    (∃ r ∈ [geoA, geoB],
      (mergeGroup [geoA, geoB]).anomaly_score = r.anomaly_score) :=
  ⟨by simp, (merge_aggregation_policy.1 [geoA, geoB]).2.2.2.1 (by simp)⟩

/-! ## Claim C8 -/

/-- C8: loading a source whose directory yields zero files raises the
pandas no-objects-to-concatenate error instead of returning an empty
table, so an empty source directory fails the pipeline loudly. -/
theorem empty_source_errors :
    load_enrolment_data [] = Except.error "No objects to concatenate" := rfl

theorem pickBetter_fold_spec (scorer : String → String → ℚ) (name : String) :
    ∀ (ts : List String) (b : String × ℚ), b.2 = scorer name b.1 →
      (ts.foldl (pickBetter scorer name) b).2 =
          scorer name (ts.foldl (pickBetter scorer name) b).1 ∧
      b.2 ≤ (ts.foldl (pickBetter scorer name) b).2 ∧
      (∀ u ∈ ts, scorer name u ≤ (ts.foldl (pickBetter scorer name) b).2) ∧
      ((ts.foldl (pickBetter scorer name) b).1 = b.1 ∨
        (ts.foldl (pickBetter scorer name) b).1 ∈ ts)
  | [], b, hb => ⟨hb, le_refl _, fun u hu => absurd hu (List.not_mem_nil u),
      Or.inl rfl⟩
  | u :: ts, b, hb => by
    rw [List.foldl_cons]
    by_cases hlt : b.2 < scorer name u
    · have hstep : pickBetter scorer name b u = (u, scorer name u) := by
        unfold pickBetter
        rw [if_pos hlt]
      obtain ⟨h1, h2, h3, h4⟩ :=
        pickBetter_fold_spec scorer name ts (u, scorer name u) rfl
      rw [hstep]
      refine ⟨h1, le_trans (le_of_lt hlt) h2, fun v hv => ?_, ?_⟩
      · rcases List.mem_cons.mp hv with rfl | hv2
        · exact h2
        · exact h3 v hv2
      · rcases h4 with h4 | h4
        · exact Or.inr (List.mem_cons.mpr (Or.inl h4))
        · exact Or.inr (List.mem_cons_of_mem u h4)
    · have hstep : pickBetter scorer name b u = b := by
        unfold pickBetter
        rw [if_neg hlt]
      obtain ⟨h1, h2, h3, h4⟩ := pickBetter_fold_spec scorer name ts b hb
      rw [hstep]
      refine ⟨h1, h2, fun v hv => ?_, ?_⟩
      · rcases List.mem_cons.mp hv with rfl | hv2
        · exact le_trans (le_of_not_lt hlt) h2
        · exact h3 v hv2
      · rcases h4 with h4 | h4
        · exact Or.inl h4
        · exact Or.inr (List.mem_cons_of_mem u h4)

theorem extractOne_spec {scorer : String → String → ℚ} {name : String}
    {targets : List String} {best : String} {score : ℚ}
    (h : extractOne scorer name targets = some (best, score)) :
    score = scorer name best ∧ best ∈ targets ∧
      ∀ u ∈ targets, scorer name u ≤ score := by
  cases targets with
  | nil => simp [extractOne] at h
  | cons t ts =>
    simp only [extractOne, Option.some.injEq] at h
    obtain ⟨h1, h2, h3, h4⟩ :=
      pickBetter_fold_spec scorer name ts (t, scorer name t) rfl
    rw [h] at h1 h2 h3 h4
    refine ⟨h1, ?_, fun u hu => ?_⟩
    · rcases h4 with h4 | h4
      · rw [show best = t from h4]
        exact List.mem_cons_self t ts
      · exact List.mem_cons_of_mem t h4
    · rcases List.mem_cons.mp hu with rfl | hu2
      · exact h2
      · exact h3 u hu2

/-! ## Claim C9 -/

/-- C9: every entry of the partial mapping returned by
fuzzy_match_districts maps a source name to a target of the target list
whose similarity is at least the threshold and is the best similarity
among all targets; no source name is mapped below threshold, for every
scorer, source list, target list and threshold. -/
theorem fuzzy_match_threshold (scorer : String → String → ℚ)
    (sources targets : List String) (threshold : ℚ) :
    ∀ pr ∈ fuzzyMatchDistricts scorer sources targets threshold,
      threshold ≤ scorer pr.1 pr.2 ∧ pr.2 ∈ targets ∧
        ∀ u ∈ targets, scorer pr.1 u ≤ scorer pr.1 pr.2 := by
  induction sources with
  | nil =>
    intro pr hpr
    simp [fuzzyMatchDistricts] at hpr
  | cons name rest ih =>
    intro pr hpr
    simp only [fuzzyMatchDistricts, List.foldr_cons] at hpr
    by_cases hskip : name = "" ∨ name ∈ targets
    · rw [if_pos hskip] at hpr
      exact ih pr hpr
    · rw [if_neg hskip] at hpr
      cases hex : extractOne scorer name targets with
      | none =>
        simp only [hex] at hpr
        exact ih pr hpr
      | some bs =>
        obtain ⟨best, score⟩ := bs
        simp only [hex] at hpr
        by_cases hth : threshold ≤ score
        · rw [if_pos hth] at hpr
          rcases List.mem_cons.mp hpr with rfl | hpr2
          · obtain ⟨h1, h2, h3⟩ := extractOne_spec hex
            exact ⟨by rw [← h1] at *; exact hth, h2, by rw [← h1]; exact h3⟩
          · exact ih pr hpr2
        · rw [if_neg hth] at hpr
          exact ih pr hpr

/-- C9 witness: the threshold bound applied at the concrete mapping entry
produced for the source "Mysore" against the target list ["Mysuru"]. -/
theorem fuzzy_match_threshold_witness :
    (("Mysore", "Mysuru") ∈ fuzzyMatchDistricts witScorer ["Mysore"] ["Mysuru"] 85) ∧
    85 ≤ witScorer "Mysore" "Mysuru" := by
  have hmem :
      ("Mysore", "Mysuru") ∈ fuzzyMatchDistricts witScorer ["Mysore"] ["Mysuru"] 85 := by
    decide
  exact ⟨hmem,
    (fuzzy_match_threshold witScorer ["Mysore"] ["Mysuru"] 85
      ("Mysore", "Mysuru") hmem).1⟩

end Aadhaar
